import Mathlib

/-!
Shallow embedding of the VideoBling pipeline engine and its Volcengine
service clients (`backend/app/services/pipeline.py`,
`backend/app/services/volc_clients.py`, `backend/app/services/script_schema.py`),
together with proofs of the specification claims about them.

JSON values are modelled by `JVal`; Python dicts are insertion-ordered
association lists with unique keys.  Float-valued JSON numbers keep their
decimal lexeme (the claims never compute with float values).
-/

set_option maxHeartbeats 2000000

namespace VideoBling

/-- A JSON value as produced by Python's `json.loads`: strings, integer
numbers, float numbers (kept as their decimal lexeme), booleans, null,
arrays and objects. -/
inductive JVal where
  | s : String → JVal
  | i : Int → JVal
  | f : String → JVal
  | b : Bool → JVal
  | null : JVal
  | arr : List JVal → JVal
  | obj : List (String × JVal) → JVal
  deriving Repr, BEq

/-- A Python dict holding JSON data: insertion-ordered key/value pairs. -/
abbrev JObj := List (String × JVal)

/-- `dict.get`: first binding of the key, if any. -/
def jget (kvs : JObj) (k : String) : Option JVal :=
  (kvs.find? (fun p => p.1 == k)).map (fun p => p.2)

/-- Characters stripped by Python's `str.strip()` (ASCII whitespace). -/
def pyIsSpace (c : Char) : Bool :=
  c == ' ' || c == '\t' || c == '\n' || c == '\r' || c == '\x0b' || c == '\x0c'

/-- Python `str.strip()`. -/
def pyStrip (s : String) : String :=
  String.mk (((s.toList.dropWhile pyIsSpace).reverse.dropWhile pyIsSpace).reverse)

/-- Python `str.lower()` (ASCII case folding; all relevant inputs are ASCII). -/
def pyLower (s : String) : String :=
  String.mk (s.toList.map Char.toLower)

/-- Python `needle in haystack` on strings. -/
def pyContains (haystack needle : String) : Bool :=
  decide (needle.toList <:+: haystack.toList)

/-- Python `s[:n]` truncation. -/
def pyTake (s : String) (n : Nat) : String :=
  String.mk (s.toList.take n)

/-- Python `sep.join(parts)`. -/
def pyJoin (sep : String) : List String → String
  | [] => ""
  | [x] => x
  | x :: rest => x ++ sep ++ pyJoin sep rest

/-- Python `str()` on a JSON value (array/object rendering is never relied on). -/
def pyStr : JVal → String
  | .s t => t
  | .i n => toString n
  | .f lex => lex
  | .b true => "True"
  | .b false => "False"
  | .null => "None"
  | .arr _ => "[...]"
  | .obj _ => "\x7b...\x7d"

/-- Mantissa-zero test on a float lexeme (decides Python float truthiness). -/
def floatLexIsZero (lex : String) : Bool :=
  let noSign := lex.toList.dropWhile (fun c => c == '-' || c == '+')
  let mantissa := noSign.takeWhile (fun c => c != 'e' && c != 'E')
  mantissa.all (fun c => c == '0' || c == '.')

/-- Python truthiness of an optional JSON value (`None` for a missing key). -/
def pyTruthy : Option JVal → Bool
  | none => false
  | some (.s t) => t != ""
  | some (.i n) => n != 0
  | some (.f lex) => ! floatLexIsZero lex
  | some (.b v) => v
  | some .null => false
  | some (.arr xs) => ! xs.isEmpty
  | some (.obj kvs) => ! kvs.isEmpty

mutual

/-- `volc_clients._deep_find`: recursive search for values bound to any of
`keys`, dict entries in insertion order, recursing into every value. -/
def deep_find (keys : List String) : JVal → List JVal
  | .obj kvs => deep_find_members keys kvs
  | .arr xs => deep_find_items keys xs
  | _ => []

def deep_find_members (keys : List String) : List (String × JVal) → List JVal
  | [] => []
  | (k, v) :: rest =>
      (if k ∈ keys then [v] else []) ++ deep_find keys v ++ deep_find_members keys rest

def deep_find_items (keys : List String) : List JVal → List JVal
  | [] => []
  | x :: rest => deep_find keys x ++ deep_find_items keys rest

end

/-- `volc_clients._first_string`: first value that is a string with
non-blank `strip()`, returned stripped. -/
def first_string : List JVal → Option String
  | [] => none
  | .s v :: rest => if pyStrip v != "" then some (pyStrip v) else first_string rest
  | _ :: rest => first_string rest

/-- Texts collected from one utterance/sentence block: the stripped non-blank
`text` fields of its dict rows, in order. -/
def block_texts : List JVal → List String
  | [] => []
  | .obj row :: rest =>
      (match jget row "text" with
       | some (.s t) => if pyStrip t != "" then [pyStrip t] else []
       | _ => []) ++ block_texts rest
  | _ :: rest => block_texts rest

/-- The loop over utterance/sentence candidate blocks in `parse_asr_text`:
first list-valued block whose rows yield at least one non-blank text. -/
def first_block_texts : List JVal → Option (List String)
  | [] => none
  | .arr rows :: rest =>
      let parts := block_texts rows
      if ! parts.isEmpty then some parts else first_block_texts rest
  | _ :: rest => first_block_texts rest

/-- `volc_clients.parse_asr_text`. -/
def parse_asr_text (payload : JObj) : String :=
  let direct : Option String :=
    match jget payload "result" with
    | some (.obj r) =>
        match jget r "text" with
        | some (.s t) => if pyStrip t != "" then some (pyStrip t) else none
        | _ => none
    | _ => none
  match direct with
  | some t => t
  | none =>
      match first_block_texts (deep_find ["utterances", "sentences"] (.obj payload)) with
      | some parts => pyJoin "\n" parts
      | none =>
          match first_string (deep_find ["text"] (.obj payload)) with
          | some t => t
          | none => ""

/-- The exceptions raised by the embedded code. -/
inductive PyErr where
  | scriptSchemaError : String → PyErr
  | volcAPIError : String → PyErr
  | pipelineError : String → PyErr
  | valueError : String → PyErr
  | jsonDecodeError : String → PyErr
  | attributeError : String → PyErr
  | mediaError : String → PyErr
  deriving Repr, DecidableEq

/-- `script_schema.REQUIRED_FIELDS`, listed in the lexicographic order that
`sorted()` produces. -/
def REQUIRED_FIELDS_SORTED : List String :=
  ["hook_title", "narration", "safety_notes", "shot_list", "style_tags", "visual_prompt"]

/-- `sorted(REQUIRED_FIELDS - set(payload.keys()))`. -/
def missing_fields (payload : JObj) : List String :=
  REQUIRED_FIELDS_SORTED.filter (fun k => (jget payload k).isNone)

/-- Is the value under the key a Python list? -/
def isArrValue (v : Option JVal) : Bool :=
  match v with
  | some (.arr _) => true
  | _ => false

/-- Is the value under the key a string that is non-empty after `strip()`? -/
def isNonblankStrValue (v : Option JVal) : Bool :=
  match v with
  | some (.s t) => pyStrip t != ""
  | _ => false

/-- The final loop of `validate_script_payload` over the four scalar keys,
raising on the first violation. -/
def scalar_fields_check (payload : JObj) : List String → Except PyErr Unit
  | [] => .ok ()
  | k :: rest =>
      if isNonblankStrValue (jget payload k) then scalar_fields_check payload rest
      else .error (.scriptSchemaError (k ++ " must be non-empty string"))

/-- `script_schema.validate_script_payload`. -/
def validate_script_payload (payload : JObj) : Except PyErr JObj :=
  let missing := missing_fields payload
  if ! missing.isEmpty then
    .error (.scriptSchemaError ("missing fields: " ++ pyJoin ", " missing))
  else if ! isArrValue (jget payload "shot_list") then
    .error (.scriptSchemaError "shot_list must be an array")
  else if ! isArrValue (jget payload "style_tags") then
    .error (.scriptSchemaError "style_tags must be an array")
  else
    match scalar_fields_check payload ["hook_title", "visual_prompt", "narration", "safety_notes"] with
    | .ok _ => .ok payload
    | .error e => .error e

/-- `constants.JobStatus`. -/
inductive JobStatus where
  | queued
  | preprocessing
  | asr
  | transcript_polish
  | script_gen
  | video_submit
  | video_polling
  | postprocess
  | completed
  | failed
  | canceled
  deriving Repr, DecidableEq

/-- The string value of each `JobStatus` enum member. -/
def JobStatus.value : JobStatus → String
  | .queued => "queued"
  | .preprocessing => "preprocessing"
  | .asr => "asr"
  | .transcript_polish => "transcript_polish"
  | .script_gen => "script_gen"
  | .video_submit => "video_submit"
  | .video_polling => "video_polling"
  | .postprocess => "postprocess"
  | .completed => "completed"
  | .failed => "failed"
  | .canceled => "canceled"

/-- `pipeline.STAGE_SEQUENCE`. -/
def STAGE_SEQUENCE : List JobStatus :=
  [.preprocessing, .asr, .transcript_polish, .script_gen,
   .video_submit, .video_polling, .postprocess]

/-- `pipeline._normalize_start_stage`. -/
def normalize_start_stage (value : Option JVal) : JobStatus :=
  let raw := pyLower (pyStrip
    (if pyTruthy value then pyStr (value.getD .null) else JobStatus.preprocessing.value))
  match STAGE_SEQUENCE.find? (fun status => status.value == raw) with
  | some status => status
  | none => .preprocessing

/-- `pipeline._should_run_stage`. -/
def should_run_stage (start_stage stage : JobStatus) : Bool :=
  STAGE_SEQUENCE.indexOf start_stage ≤ STAGE_SEQUENCE.indexOf stage

/-! ### A model of Python's `json.loads` (strict JSON grammar) -/

/-- JSON structural whitespace. -/
def isJsonWs (c : Char) : Bool :=
  c == ' ' || c == '\t' || c == '\n' || c == '\r'

/-- Drop leading JSON whitespace. -/
def skipWs (cs : List Char) : List Char :=
  cs.dropWhile isJsonWs

/-- Value of a hexadecimal digit. -/
def hexVal (c : Char) : Option Nat :=
  if '0' ≤ c ∧ c ≤ '9' then some (c.toNat - '0'.toNat)
  else if 'a' ≤ c ∧ c ≤ 'f' then some (c.toNat - 'a'.toNat + 10)
  else if 'A' ≤ c ∧ c ≤ 'F' then some (c.toNat - 'A'.toNat + 10)
  else none

/-- Parse the body of a JSON string after the opening quote, returning the
decoded characters and the remainder after the closing quote. -/
def parseJStrChars : Nat → List Char → Option (List Char × List Char)
  | 0, _ => none
  | _ + 1, [] => none
  | _ + 1, '"' :: rest => some ([], rest)
  | fuel + 1, '\\' :: esc =>
      match esc with
      | '"' :: rest => (parseJStrChars fuel rest).map (fun p => ('"' :: p.1, p.2))
      | '\\' :: rest => (parseJStrChars fuel rest).map (fun p => ('\\' :: p.1, p.2))
      | '/' :: rest => (parseJStrChars fuel rest).map (fun p => ('/' :: p.1, p.2))
      | 'b' :: rest => (parseJStrChars fuel rest).map (fun p => ('\x08' :: p.1, p.2))
      | 'f' :: rest => (parseJStrChars fuel rest).map (fun p => ('\x0c' :: p.1, p.2))
      | 'n' :: rest => (parseJStrChars fuel rest).map (fun p => ('\n' :: p.1, p.2))
      | 'r' :: rest => (parseJStrChars fuel rest).map (fun p => ('\r' :: p.1, p.2))
      | 't' :: rest => (parseJStrChars fuel rest).map (fun p => ('\t' :: p.1, p.2))
      | 'u' :: h1 :: h2 :: h3 :: h4 :: rest =>
          match hexVal h1, hexVal h2, hexVal h3, hexVal h4 with
          | some a, some b, some c, some d =>
              let n := ((a * 16 + b) * 16 + c) * 16 + d
              (parseJStrChars fuel rest).map (fun p => (Char.ofNat n :: p.1, p.2))
          | _, _, _, _ => none
      | _ => none
  | fuel + 1, c :: rest =>
      if c.toNat < 0x20 then none
      else (parseJStrChars fuel rest).map (fun p => (c :: p.1, p.2))

/-- Split a leading run of decimal digits. -/
def splitDigits (cs : List Char) : List Char × List Char :=
  (cs.takeWhile Char.isDigit, cs.dropWhile Char.isDigit)

/-- Numeric value of a digit run. -/
def digitsToNat (ds : List Char) : Nat :=
  ds.foldl (fun n c => n * 10 + (c.toNat - '0'.toNat)) 0

/-- Parse the optional fraction part of a JSON number, returning its lexeme. -/
def parseJFrac : List Char → Option (List Char × List Char)
  | '.' :: r =>
      let p := splitDigits r
      if p.1.isEmpty then none else some ('.' :: p.1, p.2)
  | cs => some ([], cs)

/-- Parse the optional exponent part of a JSON number, returning its lexeme. -/
def parseJExp : List Char → Option (List Char × List Char)
  | [] => some ([], [])
  | e :: r =>
      if e == 'e' || e == 'E' then
        let signAndRest : List Char × List Char :=
          match r with
          | c :: r' => if c == '+' || c == '-' then ([c], r') else ([], c :: r')
          | [] => ([], [])
        let p := splitDigits signAndRest.2
        if p.1.isEmpty then none else some (e :: signAndRest.1 ++ p.1, p.2)
      else some ([], e :: r)

/-- Parse a JSON number: an integer literal yields `JVal.i`, a literal with
fraction or exponent keeps its lexeme as `JVal.f`. -/
def parseJNumber (cs : List Char) : Option (JVal × List Char) :=
  let signAndRest : List Char × List Char :=
    match cs with
    | '-' :: r => (['-'], r)
    | _ => ([], cs)
  let p := splitDigits signAndRest.2
  if p.1.isEmpty then none
  else if p.1.head? == some '0' && p.1.length > 1 then none
  else
    match parseJFrac p.2 with
    | none => none
    | some (fracLex, afterFrac) =>
        match parseJExp afterFrac with
        | none => none
        | some (expLex, rest) =>
            if fracLex.isEmpty && expLex.isEmpty then
              let n : Int := Int.ofNat (digitsToNat p.1)
              some (JVal.i (if signAndRest.1.isEmpty then n else -n), rest)
            else
              some (JVal.f (String.mk (signAndRest.1 ++ p.1 ++ fracLex ++ expLex)), rest)

/-- Python dict assignment `d[k] = v`: update in place or append. -/
def objInsert (kvs : JObj) (k : String) (v : JVal) : JObj :=
  if (kvs.find? (fun p => p.1 == k)).isSome then
    kvs.map (fun p => if p.1 == k then (k, v) else p)
  else kvs ++ [(k, v)]

mutual

/-- Parse one JSON value at the head of the input (leading whitespace already
consumed), returning the value and the remainder. -/
def parseJValue : Nat → List Char → Option (JVal × List Char)
  | 0, _ => none
  | fuel + 1, cs =>
      match cs with
      | '"' :: rest =>
          (parseJStrChars (fuel + 1) rest).map (fun p => (JVal.s (String.mk p.1), p.2))
      | '{' :: rest =>
          let cs1 := skipWs rest
          match cs1 with
          | '}' :: r => some (.obj [], r)
          | _ => parseJMembers fuel cs1 []
      | '[' :: rest =>
          let cs1 := skipWs rest
          match cs1 with
          | ']' :: r => some (.arr [], r)
          | _ => parseJItems fuel cs1 []
      | 't' :: 'r' :: 'u' :: 'e' :: rest => some (.b true, rest)
      | 'f' :: 'a' :: 'l' :: 's' :: 'e' :: rest => some (.b false, rest)
      | 'n' :: 'u' :: 'l' :: 'l' :: rest => some (.null, rest)
      | 'N' :: 'a' :: 'N' :: rest => some (.f "nan", rest)
      | 'I' :: 'n' :: 'f' :: 'i' :: 'n' :: 'i' :: 't' :: 'y' :: rest => some (.f "inf", rest)
      | '-' :: 'I' :: 'n' :: 'f' :: 'i' :: 'n' :: 'i' :: 't' :: 'y' :: rest =>
          some (.f "-inf", rest)
      | _ => parseJNumber cs

/-- Parse the members of a JSON object after `{` and leading whitespace,
given the members parsed so far. -/
def parseJMembers : Nat → List Char → JObj → Option (JVal × List Char)
  | 0, _, _ => none
  | fuel + 1, cs, acc =>
      match cs with
      | '"' :: rest =>
          match parseJStrChars (fuel + 1) rest with
          | some (keyChars, r1) =>
              match skipWs r1 with
              | ':' :: r3 =>
                  match parseJValue fuel (skipWs r3) with
                  | some (v, r4) =>
                      let acc1 := objInsert acc (String.mk keyChars) v
                      match skipWs r4 with
                      | ',' :: r6 => parseJMembers fuel (skipWs r6) acc1
                      | '}' :: r6 => some (.obj acc1, r6)
                      | _ => none
                  | none => none
              | _ => none
          | none => none
      | _ => none

/-- Parse the items of a JSON array after `[` and leading whitespace,
given the items parsed so far. -/
def parseJItems : Nat → List Char → List JVal → Option (JVal × List Char)
  | 0, _, _ => none
  | fuel + 1, cs, acc =>
      match parseJValue fuel cs with
      | some (v, r) =>
          match skipWs r with
          | ',' :: r2 => parseJItems fuel (skipWs r2) (acc ++ [v])
          | ']' :: r2 => some (.arr (acc ++ [v]), r2)
          | _ => none
      | none => none

end

/-- Python `json.loads`: parse a complete JSON document, requiring only
whitespace after the value. `none` models a raised `JSONDecodeError`. -/
def json_loads (text : String) : Option JVal :=
  let cs := skipWs text.toList
  match parseJValue (cs.length + 1) cs with
  | some (v, rest) => if (skipWs rest).isEmpty then some v else none
  | none => none

/-- Python `str.startswith`. -/
def pyStartsWith (s pat : String) : Bool :=
  pat.toList.isPrefixOf s.toList

/-- Python `str.endswith`. -/
def pyEndsWith (s pat : String) : Bool :=
  pat.toList.reverse.isPrefixOf s.toList.reverse

/-- Python `s[n:]`. -/
def pyDropLeft (s : String) (n : Nat) : String :=
  String.mk (s.toList.drop n)

/-- Python `s[:-n]` for positive `n`. -/
def pyDropRight (s : String) (n : Nat) : String :=
  String.mk (s.toList.take (s.toList.length - n))

/-- The greedy multiline search `re.search(r"\x7b.*\x7d", text, re.DOTALL)`:
the span from the first opening brace to the last closing brace after
it, if both exist. -/
def regex_brace_span (cs : List Char) : Option (List Char) :=
  let fromBrace := cs.dropWhile (fun c => c != '{')
  let span := (fromBrace.reverse.dropWhile (fun c => c != '}')).reverse
  if span.isEmpty then none else some span

/-- The fence-stripping prelude of `extract_first_json_object`: strip the
text, then drop a leading ````` ``` ````/````` ```json ````` fence marker
and a trailing ````` ``` ````, re-stripping after each removal. -/
def fence_stripped (textIn : String) : String :=
  let text1 := pyStrip textIn
  if pyStartsWith text1 "```" then
    let afterOpen :=
      if pyStartsWith text1 "```json" then pyStrip (pyDropLeft text1 7)
      else pyStrip (pyDropLeft text1 3)
    if pyEndsWith afterOpen "```" then pyStrip (pyDropRight afterOpen 3) else afterOpen
  else text1

/-- The fallback of `extract_first_json_object` when the whole text does
not parse to an object: match the greedy brace span and parse it, raising
the uncaught `JSONDecodeError` when the span is not valid JSON. -/
def brace_span_fallback (text2 : String) : Except PyErr JVal :=
  match regex_brace_span text2.toList with
  | none => .error (.valueError "no json object found in llm output")
  | some span =>
      match json_loads (String.mk span) with
      | none => .error (.jsonDecodeError "invalid json in matched span")
      | some (JVal.obj kvs) => .ok (JVal.obj kvs)
      | some _ => .error (.valueError "llm output json must be object")

/-- `volc_clients.extract_first_json_object`. -/
def extract_first_json_object (textIn : String) : Except PyErr JVal :=
  let text1 := pyStrip textIn
  if text1 == "" then .error (.valueError "empty llm output")
  else
    let text2 := fence_stripped textIn
    match json_loads text2 with
    | some (JVal.obj kvs) => .ok (JVal.obj kvs)
    | _ => brace_span_fallback text2

/-! ### HTTP response model and the ASR client -/

/-- An HTTP response as observed through `httpx`: status code, response
headers and the raw body text.  `response.json()` is `json_loads` of the
body. -/
structure HResp where
  status_code : Nat
  headers : List (String × String)
  body : String
  deriving Repr

/-- `response.headers.get(k)` (header names are used verbatim). -/
def headerGet (r : HResp) (k : String) : Option String :=
  (r.headers.find? (fun p => p.1 == k)).map (fun p => p.2)

/-- The `header` object of a parsed response body, when the body is a JSON
object whose `header` member is an object (the only case in which the
helpers below use it). -/
def jsonHeader (r : HResp) : Option JObj :=
  match json_loads r.body with
  | some (.obj kvs) =>
      match jget kvs "header" with
      | some (.obj h) => some h
      | _ => none
  | _ => none

/-- `str(header.get("message", "")).lower()`. -/
def headerMessageLower (h : JObj) : String :=
  pyLower (pyStr ((jget h "message").getD (.s "")))

/-- `ASRClient._is_grant_not_found_error`. -/
def is_grant_not_found_error (r : HResp) : Bool :=
  if pyContains (pyLower r.body) "requested grant not found" then true
  else
    match jsonHeader r with
    | none => false
    | some h =>
        pyContains (headerMessageLower h) "grant" && pyContains (headerMessageLower h) "not found"

/-- `ASRClient._is_resource_not_allowed_error`. -/
def is_resource_not_allowed_error (r : HResp) : Bool :=
  if pyContains (pyLower r.body) "resourceid" && pyContains (pyLower r.body) "not allowed" then true
  else
    match jsonHeader r with
    | none => false
    | some h =>
        pyContains (headerMessageLower h) "resourceid" && pyContains (headerMessageLower h) "not allowed"

/-- `ASRClient._is_resource_not_granted_error`. -/
def is_resource_not_granted_error (r : HResp) : Bool :=
  if pyContains (pyLower r.body) "requested resource not granted" then true
  else if pyContains (pyLower r.body) "resource_id=" && pyContains (pyLower r.body) "not granted" then true
  else
    match jsonHeader r with
    | none => false
    | some h =>
        pyContains (headerMessageLower h) "resource" && pyContains (headerMessageLower h) "not granted"

/-- `ASRClient._is_permission_message`. -/
def is_permission_message (message : String) : Bool :=
  let text := pyLower message
  (pyContains text "resourceid" && pyContains text "not allowed")
  || pyContains text "requested grant not found"
  || pyContains text "resourceid"
  || pyContains text "not allowed"
  || pyContains text "requested resource not granted"
  || pyContains text "not granted"

/-- `ASRClient._extract_status_code`. -/
def extract_status_code (r : HResp) : String :=
  let status := (headerGet r "X-Api-Status-Code").getD ""
  if status != "" then status
  else
    match json_loads r.body with
    | some (.obj kvs) =>
        match jget kvs "header" with
        | some (.obj h) =>
            match jget h "code" with
            | some .null => ""
            | some v => pyStr v
            | none => ""
        | _ => ""
    | _ => ""

/-- `ASRClient._extract_status_message`. -/
def extract_status_message (r : HResp) : String :=
  let message := (headerGet r "X-Api-Message").getD ""
  if message != "" then message
  else
    match json_loads r.body with
    | some (.obj kvs) =>
        match jget kvs "header" with
        | some (.obj h) =>
            match jget h "message" with
            | some .null => ""
            | some v => pyStr v
            | none => ""
        | _ => ""
    | _ => ""

/-- `ASRClient._is_permission_response`. -/
def is_permission_response (r : HResp) : Bool :=
  is_grant_not_found_error r
  || is_resource_not_allowed_error r
  || is_resource_not_granted_error r
  || is_permission_message r.body
  || is_permission_message (extract_status_message r)

/-- The per-attempt diagnostic line built by `ASRClient._append_try_error`. -/
def try_error_line (stage resource_id : String) (r : HResp) : String :=
  let reqid :=
    match json_loads r.body with
    | some (.obj kvs) =>
        match jget kvs "header" with
        | some (.obj h) => pyStr ((jget h "reqid").getD (.s ""))
        | _ => ""
    | _ => ""
  let status_code := (headerGet r "X-Api-Status-Code").getD ""
  let status_message := (headerGet r "X-Api-Message").getD ""
  stage ++ ":" ++ resource_id ++ ":http=" ++ toString r.status_code
    ++ ":status=" ++ status_code ++ ":reqid=" ++ reqid
    ++ ":msg=" ++ (if status_message != "" then status_message else pyTake r.body 180)

/-- `config.ASRConfig` (the fields the client reads). -/
structure ASRConfig where
  base_url : String := "https://openspeech.bytedance.com"
  appid : String := ""
  access_token : String := ""
  resource_id : String := "volc.bigasr.auc_turbo"
  boosting_table_name : String := ""
  timeout_s : Int := 120
  deriving Repr

/-- `ASRClient._RESOURCE_FALLBACKS`. -/
def RESOURCE_FALLBACKS : List String :=
  ["volc.bigasr.auc_turbo", "volc.seedasr.auc", "volc.bigasr.auc"]

/-- `ASRClient._candidate_resource_ids`. -/
def candidate_resource_ids (cfg : ASRConfig) : List String :=
  let configured := pyStrip cfg.resource_id
  let start := if configured != "" then [configured] else []
  RESOURCE_FALLBACKS.foldl (fun acc fb => if fb ∈ acc then acc else acc ++ [fb]) start

/-- `business_code not in (None, 20000000, "20000000")`, negated (a JSON
`null` reads back as Python `None`). -/
def business_code_ok : Option JVal → Bool
  | none => true
  | some .null => true
  | some (.i 20000000) => true
  | some (.s "20000000") => true
  | _ => false

/-- `ASRClient._recognize_flash`: one synchronous call per candidate
resource id; the response to each POST is `flash rid`.  Returns the payload
of the first accepted candidate together with the accumulated per-attempt
diagnostics, or `none` when every candidate was skipped as a
permission-class failure. -/
def recognize_flash (flash : String → HResp) :
    List String → List String → Except PyErr (Option JVal × List String)
  | [], tried => .ok (none, tried)
  | rid :: rest, tried =>
      let resp := flash rid
      if resp.status_code ≥ 400 then
        let tried1 := tried ++ [try_error_line "flash" rid resp]
        if is_permission_response resp then recognize_flash flash rest tried1
        else .error (.volcAPIError
          ("ASR request failed: " ++ toString resp.status_code ++ " " ++ pyTake resp.body 500))
      else
        let status_code := extract_status_code resp
        if status_code != "" && status_code != "20000000" then
          let tried1 := tried ++ [try_error_line "flash" rid resp]
          if is_permission_message (extract_status_message resp) then
            recognize_flash flash rest tried1
          else .error (.volcAPIError
            ("ASR business error: " ++ status_code ++ " " ++ extract_status_message resp
              ++ " " ++ pyTake resp.body 500))
        else
          match json_loads resp.body with
          | none => .error (.jsonDecodeError "flash response body is not valid json")
          | some (JVal.obj kvs) =>
              match jget kvs "header" with
              | some (.obj h) =>
                  if business_code_ok (jget h "code") then .ok (some (JVal.obj kvs), tried)
                  else
                    let message := pyStr ((jget h "message").getD (.s ""))
                    if is_permission_message message then
                      recognize_flash flash rest (tried ++ [try_error_line "flash" rid resp])
                    else .error (.volcAPIError
                      ("ASR business error: " ++ pyStr ((jget h "code").getD .null) ++ " "
                        ++ message ++ " " ++ pyTake resp.body 500))
              | _ => .ok (some (JVal.obj kvs), tried)
          | some _ => .error (.attributeError "flash response json is not a dict")

/-- `ASRClient._STANDARD_PROCESSING_STATUS`. -/
def STANDARD_PROCESSING_STATUS : List String := ["20000001"]

/-- `ASRClient._STANDARD_TERMINAL_STATUS`. -/
def STANDARD_TERMINAL_STATUS : List String := ["20000000", "20000003"]

/-- Outcome of one candidate's busy-poll loop in the standard path. -/
inductive LoopOutcome where
  | done : JVal → LoopOutcome
  | nextCandidate : LoopOutcome
  | raised : PyErr → LoopOutcome
  deriving Repr

/-- The `while time.time() < deadline` busy-poll loop of
`ASRClient._recognize_standard` for one candidate.  `query n` is the
response to the `n`-th status poll; the remaining whole seconds before the
deadline are the structural fuel (`time.sleep(1)` consumes one of them; the
loop's `else` clause — fuel exhausted — raises the timeout error). -/
def standard_query_loop (query : Nat → HResp) (rid : String) (timeout_s : Int) :
    Nat → Nat → List String → LoopOutcome × List String
  | 0, _, tried =>
      (.raised (.volcAPIError
        ("ASR standard query timed out after " ++ toString timeout_s
          ++ "s (resource_id=" ++ rid ++ ")")), tried)
  | remaining + 1, n, tried =>
      let resp := query n
      if resp.status_code ≥ 400 then
        let tried1 := tried ++ [try_error_line "query" rid resp]
        if is_permission_response resp then (.nextCandidate, tried1)
        else (.raised (.volcAPIError
          ("ASR query failed: " ++ toString resp.status_code ++ " " ++ pyTake resp.body 500)), tried1)
      else
        let status := extract_status_code resp
        if status ∈ STANDARD_PROCESSING_STATUS then
          standard_query_loop query rid timeout_s remaining (n + 1) tried
        else if status ∈ STANDARD_TERMINAL_STATUS || status == "" then
          match json_loads resp.body with
          | some payload => (.done payload, tried)
          | none => (.raised (.jsonDecodeError "query response body is not valid json"), tried)
        else
          let message := extract_status_message resp
          let tried1 := tried ++ [try_error_line "query" rid resp]
          if is_permission_message message then (.nextCandidate, tried1)
          else (.raised (.volcAPIError
            ("ASR query business error: " ++ status ++ " " ++ message
              ++ " " ++ pyTake resp.body 500)), tried1)

/-- `ASRClient._recognize_standard`: submit-then-poll per candidate.
`submit rid` is the submit response for candidate `rid`; `query rid n` the
`n`-th poll response for it.  The poll deadline is `max(5, cfg.timeout_s)`
seconds ahead. -/
def recognize_standard (submit : String → HResp) (query : String → Nat → HResp)
    (cfg : ASRConfig) :
    List String → List String → Except PyErr (Option JVal × List String)
  | [], tried => .ok (none, tried)
  | rid :: rest, tried =>
      let sresp := submit rid
      if sresp.status_code ≥ 400 then
        let tried1 := tried ++ [try_error_line "submit" rid sresp]
        if is_permission_response sresp then recognize_standard submit query cfg rest tried1
        else .error (.volcAPIError
          ("ASR submit failed: " ++ toString sresp.status_code ++ " " ++ pyTake sresp.body 500))
      else
        let sstatus := extract_status_code sresp
        if sstatus != "" && sstatus != "20000000" then
          let tried1 := tried ++ [try_error_line "submit" rid sresp]
          if is_permission_message (extract_status_message sresp) then
            recognize_standard submit query cfg rest tried1
          else .error (.volcAPIError
            ("ASR submit business error: " ++ sstatus ++ " " ++ extract_status_message sresp
              ++ " " ++ pyTake sresp.body 500))
        else
          match standard_query_loop (query rid) rid cfg.timeout_s
              (Int.toNat (max 5 cfg.timeout_s)) 0 tried with
          | (.done payload, tried1) => .ok (some payload, tried1)
          | (.nextCandidate, tried1) => recognize_standard submit query cfg rest tried1
          | (.raised e, _) => .error e

/-- The remote responses `ASRClient.recognize` can observe: flash, submit
and poll responses per candidate resource id. -/
structure ASROracle where
  flash : String → HResp
  submit : String → HResp
  query : String → Nat → HResp

/-- `ASRClient.recognize`. -/
def recognize (oracle : ASROracle) (cfg : ASRConfig) : Except PyErr JVal :=
  if cfg.appid == "" || cfg.access_token == "" then
    .error (.volcAPIError "ASR appid/access_token is required")
  else
    let candidates := candidate_resource_ids cfg
    match recognize_flash oracle.flash candidates [] with
    | .error e => .error e
    | .ok (some payload, _) => .ok payload
    | .ok (none, tried) =>
        match recognize_standard oracle.submit oracle.query cfg candidates tried with
        | .error e => .error e
        | .ok (some payload, _) => .ok payload
        | .ok (none, tried2) =>
            .error (.volcAPIError
              ("ASR resource is not granted for current credentials. Tried resource_id(s): "
                ++ pyJoin "," candidates ++ ". Details: "
                ++ pyTake (pyJoin " | " tried2) 1400
                ++ ". Please use an ASR app/token with granted resourceId from Volcengine Speech Console."))

/-! ### The video generation client -/

/-- `config.VideoConfig` (the fields the client reads). -/
structure VideoConfig where
  base_url : String := "https://ark.cn-beijing.volces.com"
  api_key : String := ""
  model : String := "seedance-1-5-pro-250528"
  timeout_s : Int := 600
  poll_interval_s : Int := 5
  deriving Repr

/-- `VideoClient._submit_payload_candidates`: the five payload shape
variants, richest first, legacy flat prompt/resolution last. -/
def submit_payload_candidates (cfg : VideoConfig) (prompt : String)
    (duration_s width height : Int) : List JVal :=
  let duration := max 1 duration_s
  let safe_width := max 1 width
  let safe_height := max 1 height
  let content := JVal.arr [JVal.obj [("type", .s "text"), ("text", .s prompt)]]
  [ .obj [("model", .s cfg.model), ("content", content), ("duration", .i duration),
      ("width", .i safe_width), ("height", .i safe_height)],
    .obj [("model", .s cfg.model), ("content", content), ("duration", .i duration),
      ("size", .s (toString safe_width ++ "x" ++ toString safe_height))],
    .obj [("model", .s cfg.model), ("content", content), ("duration", .i duration)],
    .obj [("model", .s cfg.model), ("content", content)],
    .obj [("model", .s cfg.model), ("prompt", .s prompt), ("duration", .i duration),
      ("resolution", .s (toString safe_width ++ "x" ++ toString safe_height))] ]

/-- The attempt loop of `VideoClient.submit_generation` over the payload
variants; `post idx` is the response to the `idx`-th POST
(1-based, matching `enumerate(start=1)`). -/
def submit_generation_go (post : Nat → HResp) :
    List JVal → Nat → List String → Except PyErr (String × JVal)
  | [], _, attempt_errors =>
      .error (.volcAPIError ("Video submit failed after payload fallbacks. "
        ++ pyTake (pyJoin " | " attempt_errors) 1200))
  | _payload :: rest, idx, attempt_errors =>
      let resp := post idx
      if resp.status_code ≥ 400 then
        let ae := attempt_errors ++ ["attempt=" ++ toString idx ++ ":http="
          ++ toString resp.status_code ++ ":msg=" ++ pyTake resp.body 220]
        if resp.status_code == 400 || resp.status_code == 422 then
          submit_generation_go post rest (idx + 1) ae
        else .error (.volcAPIError
          ("Video submit failed: " ++ toString resp.status_code ++ " " ++ pyTake resp.body 500))
      else
        match json_loads resp.body with
        | none => .error (.jsonDecodeError "submit response body is not valid json")
        | some data =>
            match first_string (deep_find ["task_id", "id"] data) with
            | some task_id => .ok (task_id, data)
            | none =>
                submit_generation_go post rest (idx + 1)
                  (attempt_errors ++ ["attempt=" ++ toString idx ++ ":http="
                    ++ toString resp.status_code ++ ":missing_task_id"])

/-- `VideoClient.submit_generation`. -/
def submit_generation (post : Nat → HResp) (cfg : VideoConfig) (prompt : String)
    (duration_s width height : Int) : Except PyErr (String × JVal) :=
  submit_generation_go post (submit_payload_candidates cfg prompt duration_s width height) 1 []

/-- The success status set of `VideoClient.poll_until_done`. -/
def VIDEO_SUCCESS_STATUS : List String := ["succeeded", "success", "completed", "done"]

/-- The failure status set of `VideoClient.poll_until_done`. -/
def VIDEO_FAILURE_STATUS : List String := ["failed", "error", "canceled", "cancelled"]

/-- The polling loop of `VideoClient.poll_until_done`; `get n` is the
response to the `n`-th GET, and the elapsed time at iteration `n` is
`n * interval` (each `time.sleep(interval)` advances the clock).  The fuel
only bounds the model's recursion; `poll_fuel` below always suffices. -/
def poll_until_done_go (get : Nat → HResp) (deadline interval : Int) :
    Nat → Nat → Except PyErr JVal
  | 0, _ => .error (.valueError "poll model fuel exhausted")
  | fuel + 1, n =>
      let resp := get n
      if resp.status_code ≥ 400 then
        .error (.volcAPIError
          ("Video polling failed: " ++ toString resp.status_code ++ " " ++ pyTake resp.body 500))
      else
        match json_loads resp.body with
        | none => .error (.jsonDecodeError "poll response body is not valid json")
        | some payload =>
            let status := pyLower ((first_string (deep_find ["status", "state"] payload)).getD "")
            if status ∈ VIDEO_SUCCESS_STATUS then .ok payload
            else if status ∈ VIDEO_FAILURE_STATUS then
              .error (.volcAPIError ("Video generation failed: status=" ++ status))
            else if (n : Int) * interval > deadline then
              .error (.volcAPIError "Video generation timed out")
            else poll_until_done_go get deadline interval fuel (n + 1)

/-- Enough fuel for the polling loop to reach its deadline check. -/
def poll_fuel (deadline interval : Int) : Nat :=
  deadline.toNat / interval.toNat + 2

/-- `timeout_s or cfg.timeout_s`: `None` and `0` fall back to the
configured timeout. -/
def effective_video_timeout (cfg : VideoConfig) (timeout_arg : Option Int) : Int :=
  match timeout_arg with
  | some t => if t != 0 then t else cfg.timeout_s
  | none => cfg.timeout_s

/-- `VideoClient.poll_until_done`. -/
def poll_until_done (get : Nat → HResp) (cfg : VideoConfig) (timeout_arg : Option Int) :
    Except PyErr JVal :=
  let effective_timeout := effective_video_timeout cfg timeout_arg
  let interval := max 1 cfg.poll_interval_s
  poll_until_done_go get effective_timeout interval (poll_fuel effective_timeout interval) 0

/-- The status string `poll_until_done` reads from a parsed poll payload. -/
def poll_status_of (p : JVal) : String :=
  pyLower ((first_string (deep_find ["status", "state"] p)).getD "")

/-- A poll response that keeps the loop running: HTTP ok, parsable body,
and a status outside both terminal sets. -/
def poll_nonterminal (r : HResp) : Prop :=
  r.status_code < 400 ∧ ∃ p, json_loads r.body = some p ∧
    poll_status_of p ∉ VIDEO_SUCCESS_STATUS ∧ poll_status_of p ∉ VIDEO_FAILURE_STATUS

/-- `VideoClient.extract_video_url`. -/
def extract_video_url (payload : JVal) : Except PyErr String :=
  match first_string (deep_find ["video_url", "url", "output_url", "file_url", "download_url"] payload) with
  | some u => .ok u
  | none => .error (.volcAPIError "Video result missing downloadable URL")

/-! ### The pipeline engine

The engine's collaborators (job store, filesystem, media tools, the three
service clients) are explicit: the store and filesystem are threaded state,
and each external call's outcome is a field of `PipelineEnv`.  Every
repository write inside `execute_job` is committed immediately, so
`db.commit()` is the identity here and the handler's `db.rollback()` has
nothing to undo. -/

/-- `str(value or "")` as used for meta fields. -/
def pyStrOrEmpty (v : Option JVal) : String :=
  if pyTruthy v then pyStr (v.getD .null) else ""

/-- `str(e)` for a raised exception: its message. -/
def pyErrMsg : PyErr → String
  | .scriptSchemaError m => m
  | .volcAPIError m => m
  | .pipelineError m => m
  | .valueError m => m
  | .jsonDecodeError m => m
  | .attributeError m => m
  | .mediaError m => m

/-- `media.VideoMeta`.  `fps` and `duration` are float-valued in the
source; the pipeline only stores and forwards them, so the model keeps
them at integer precision. -/
structure VideoMeta where
  width : Int
  height : Int
  fps : Int
  duration : Int
  has_audio : Bool
  deriving Repr, DecidableEq

/-- `meta.__dict__` as a JSON object. -/
def videoMetaToJObj (m : VideoMeta) : JObj :=
  [("width", .i m.width), ("height", .i m.height), ("fps", .i m.fps),
   ("duration", .i m.duration), ("has_audio", .b m.has_audio)]

/-- `int(str)` for a stripped literal. -/
def strToIntOpt (t : String) : Option Int :=
  match (pyStrip t).toList with
  | '-' :: ds => if ! ds.isEmpty && ds.all Char.isDigit then some (-(digitsToNat ds : Int)) else none
  | '+' :: ds => if ! ds.isEmpty && ds.all Char.isDigit then some (digitsToNat ds) else none
  | ds => if ! ds.isEmpty && ds.all Char.isDigit then some (digitsToNat ds) else none

/-- `int(float)` truncation on a float lexeme without exponent. -/
def floatLexTruncInt (lex : String) : Option Int :=
  if lex.toList.any (fun c => c == 'e' || c == 'E') then none
  else
    match lex.toList with
    | '-' :: ds =>
        let hd := ds.takeWhile Char.isDigit
        if hd.isEmpty then none else some (-(digitsToNat hd : Int))
    | ds =>
        let hd := ds.takeWhile Char.isDigit
        if hd.isEmpty then none else some (digitsToNat hd)

/-- `pipeline._safe_int` (and `_safe_float` at the model's integer
precision): `int(value)` with a fallback default. -/
def safe_int (value : Option JVal) (default : Int) : Int :=
  match value with
  | some (.i n) => n
  | some (.b true) => 1
  | some (.b false) => 0
  | some (.s t) => (strToIntOpt t).getD default
  | some (.f lex) => (floatLexTruncInt lex).getD default
  | _ => default

/-- `pipeline._as_dict`. -/
def as_dict (value : Option JVal) : JObj :=
  match value with
  | some (.obj kvs) => kvs
  | _ => []

/-- `pipeline._video_meta_from_dict`. -/
def video_meta_from_dict (payload : JObj) : Option VideoMeta :=
  if payload.isEmpty then none
  else if ! (["width", "height", "fps", "duration", "has_audio"].all
      (fun k => (jget payload k).isSome)) then none
  else some
    { width := max 1 (safe_int (jget payload "width") 1080)
      height := max 1 (safe_int (jget payload "height") 1920)
      fps := max 1 (safe_int (jget payload "fps") 30)
      duration := max 0 (safe_int (jget payload "duration") 0)
      has_audio := pyTruthy (jget payload "has_audio") }

/-- A stored job row (`models.job.Job`, with its JSON columns decoded). -/
structure JobRec where
  id : String
  source_path : String
  asr_clip_seconds : Int
  hook_clip_seconds : Int
  status : String
  error_message : Option String
  artifacts : List (String × String)
  meta : JObj
  deriving Repr

/-- One row of the append-only per-job event log. -/
structure EventRec where
  job_id : String
  status : String
  message : String
  deriving Repr

/-- The durable job store. -/
structure DB where
  jobs : List JobRec
  events : List EventRec
  deriving Repr

/-- `repository.get_job`. -/
def db_get_job (db : DB) (job_id : String) : Option JobRec :=
  db.jobs.find? (fun j => j.id == job_id)

/-- Update the stored row of one job in place. -/
def db_update_job (db : DB) (job_id : String) (f : JobRec → JobRec) : DB :=
  { db with jobs := db.jobs.map (fun j => if j.id == job_id then f j else j) }

/-- Python dict assignment on a string-valued mapping. -/
def assocInsert (kvs : List (String × String)) (k v : String) : List (String × String) :=
  if (kvs.find? (fun p => p.1 == k)).isSome then
    kvs.map (fun p => if p.1 == k then (k, v) else p)
  else kvs ++ [(k, v)]

/-- `repository.append_event`. -/
def append_event (db : DB) (job_id status message : String) : DB :=
  { db with events := db.events ++ [⟨job_id, status, message⟩] }

/-- `repository.set_job_status` (raises `ValueError` on a missing job). -/
def set_job_status (db : DB) (job_id status message : String) : Except PyErr DB :=
  match db_get_job db job_id with
  | none => .error (.valueError ("job not found: " ++ job_id))
  | some _ =>
      let db1 := db_update_job db job_id (fun j => { j with status := status })
      .ok (if message != "" then append_event db1 job_id status message else db1)

/-- `repository.set_job_error`. -/
def set_job_error (db : DB) (job_id error_message : String) : Except PyErr DB :=
  match db_get_job db job_id with
  | none => .error (.valueError ("job not found: " ++ job_id))
  | some _ =>
      let db1 := db_update_job db job_id
        (fun j => { j with status := JobStatus.failed.value, error_message := some error_message })
      .ok (append_event db1 job_id JobStatus.failed.value error_message)

/-- `repository.put_artifact`. -/
def put_artifact (db : DB) (job_id kind path : String) : Except PyErr DB :=
  match db_get_job db job_id with
  | none => .error (.valueError ("job not found: " ++ job_id))
  | some _ => .ok (db_update_job db job_id
      (fun j => { j with artifacts := assocInsert j.artifacts kind path }))

/-- `repository.patch_meta`. -/
def patch_meta (db : DB) (job_id : String) (kvs : JObj) : Except PyErr DB :=
  match db_get_job db job_id with
  | none => .error (.valueError ("job not found: " ++ job_id))
  | some _ => .ok (db_update_job db job_id
      (fun j => { j with meta := kvs.foldl (fun m p => objInsert m p.1 p.2) j.meta }))

/-- The local filesystem: path → file bytes. -/
structure FS where
  files : List (String × String)
  deriving Repr

/-- Read a file's bytes. -/
def fs_read (fs : FS) (path : String) : Option String :=
  (fs.files.find? (fun p => p.1 == path)).map (fun p => p.2)

/-- Write (create or overwrite) a file. -/
def fs_write (fs : FS) (path content : String) : FS :=
  { fs with files := assocInsert fs.files path content }

/-- `Path.exists`. -/
def fs_exists (fs : FS) (path : String) : Bool :=
  (fs_read fs path).isSome

mutual

/-- A plain JSON renderer standing in for `json.dumps` (the pipeline never
depends on the rendered bytes, only on copying files verbatim). -/
def json_dumps : JVal → String
  | .s t => "\"" ++ t ++ "\""
  | .i n => toString n
  | .f lex => lex
  | .b true => "true"
  | .b false => "false"
  | .null => "null"
  | .arr xs => "[" ++ json_dumps_items xs ++ "]"
  | .obj kvs => "\x7b" ++ json_dumps_members kvs ++ "\x7d"

def json_dumps_items : List JVal → String
  | [] => ""
  | [x] => json_dumps x
  | x :: rest => json_dumps x ++ ", " ++ json_dumps_items rest

def json_dumps_members : List (String × JVal) → String
  | [] => ""
  | [(k, v)] => "\"" ++ k ++ "\": " ++ json_dumps v
  | (k, v) :: rest => "\"" ++ k ++ "\": " ++ json_dumps v ++ ", " ++ json_dumps_members rest

end

/-- `pipeline._read_text_or_fail`. -/
def read_text_or_fail (fs : FS) (path : String) (error_message : String) : Except PyErr String :=
  match fs_read fs path with
  | none => .error (.pipelineError error_message)
  | some content =>
      let c := pyStrip content
      if c == "" then .error (.pipelineError error_message) else .ok c

/-- `pipeline._reuse_parent_artifact`: copy the parent's artifact of `kind`
into this job's directory and record it, `none` when a non-required
artifact is unavailable, `PipelineError` when a required one is. -/
def reuse_parent_artifact (db : DB) (fs : FS) (job_id parent_job_id : String)
    (parent_artifacts : List (String × String)) (kind target_path : String)
    (required : Bool) : Except PyErr (Option String × DB × FS) :=
  let parent_path_text := ((parent_artifacts.find? (fun p => p.1 == kind)).map (fun p => p.2)).getD ""
  if parent_path_text == "" then
    if required then
      .error (.pipelineError ("重跑需复用产物 `" ++ kind ++ "`，但父任务 " ++ parent_job_id ++ " 缺少该产物"))
    else .ok (none, db, fs)
  else if ! fs_exists fs parent_path_text then
    if required then
      .error (.pipelineError ("重跑需复用产物 `" ++ kind ++ "`，但文件不存在: " ++ parent_path_text))
    else .ok (none, db, fs)
  else
    let fs1 := fs_write fs target_path ((fs_read fs parent_path_text).getD "")
    match put_artifact db job_id kind target_path with
    | .error e => .error e
    | .ok db1 => .ok (some target_path, db1, fs1)

/-- Outcomes of the external collaborators for one `execute_job` run: the
media toolchain, the ASR client, the two LLM calls, and the video client.
Each field is the result the corresponding call would produce. -/
structure PipelineEnv where
  jobs_root : String
  enable_asr_polish : Bool
  ffmpeg_ok : Bool
  ffprobe_ok : Bool
  probe : String → Except PyErr VideoMeta
  extract_wav : Except PyErr String
  asr_result : Except PyErr JObj
  polish_result : Except PyErr (String × JVal)
  script_result : Except PyErr (String × JVal)
  submit_result : Except PyErr (String × JVal)
  poll_result : Except PyErr JVal
  download : String → Except PyErr String
  normalize_source_out : Except PyErr String
  normalize_hook_out : Except PyErr String
  concat_out : Except PyErr String

/-- State threaded through the run. -/
structure RunState where
  db : DB
  fs : FS
  deriving Repr

/-- `pipeline._set_stage`. -/
def set_stage (st : RunState) (job_id : String) (status : JobStatus) (message : String) :
    Except PyErr RunState :=
  match set_job_status st.db job_id status.value message with
  | .error e => .error e
  | .ok db1 => .ok { st with db := db1 }

/-- `pipeline._save_artifact`. -/
def save_artifact (st : RunState) (job_id kind path : String) : Except PyErr RunState :=
  match put_artifact st.db job_id kind path with
  | .error e => .error e
  | .ok db1 => .ok { st with db := db1 }

/-- `pipeline._write_text` / `_write_json` (content already rendered). -/
def write_file (st : RunState) (path content : String) : RunState :=
  { st with fs := fs_write st.fs path content }

/-- The preprocessing stage block of `execute_job` (run or skip), yielding
the `source_meta` used downstream. -/
def stage_preprocessing (env : PipelineEnv) (st : RunState) (job : JobRec)
    (start_stage : JobStatus) (parent_meta : JObj) (job_dir : String) :
    Except PyErr (VideoMeta × RunState) := do
  let (source_meta, st) ←
    if should_run_stage start_stage .preprocessing then do
      let st ← set_stage st job.id .preprocessing "开始预处理视频"
      let m ← env.probe job.source_path
      pure (m, st)
    else do
      let st ← set_stage st job.id .preprocessing "跳过预处理，复用父任务元数据"
      match video_meta_from_dict (as_dict (jget parent_meta "source_meta")) with
      | some m => pure (m, st)
      | none => do
          let m ← env.probe job.source_path
          pure (m, st)
  let st := write_file st (job_dir ++ "/source_meta.json")
    (json_dumps (.obj (videoMetaToJObj source_meta)))
  match patch_meta st.db job.id [("source_meta", .obj (videoMetaToJObj source_meta))] with
  | .error e => .error e
  | .ok db1 => .ok (source_meta, { st with db := db1 })

/-- The asr stage block of `execute_job`, yielding the raw transcript. -/
def stage_asr (env : PipelineEnv) (st : RunState) (job : JobRec)
    (start_stage : JobStatus) (parent_job_id : String)
    (parent_artifacts : List (String × String)) (job_dir : String) :
    Except PyErr (String × RunState) := do
  if should_run_stage start_stage .asr then do
    let st ← set_stage st job.id .asr "正在截取音频并调用ASR"
    let wav ← env.extract_wav
    let st := write_file st (job_dir ++ "/asr_clip.wav") wav
    let st ← save_artifact st job.id "asr_clip_audio" (job_dir ++ "/asr_clip.wav")
    let payload ← env.asr_result
    let st := write_file st (job_dir ++ "/asr_response.json") (json_dumps (.obj payload))
    let transcript_raw := pyStrip (parse_asr_text payload)
    if transcript_raw == "" then .error (.pipelineError "ASR识别结果为空")
    else do
      let st := write_file st (job_dir ++ "/transcript_raw.txt") transcript_raw
      let st ← save_artifact st job.id "transcript_raw" (job_dir ++ "/transcript_raw.txt")
      pure (transcript_raw, st)
  else do
    let st ← set_stage st job.id .asr "跳过ASR，复用父任务转写产物"
    match reuse_parent_artifact st.db st.fs job.id parent_job_id parent_artifacts
        "asr_clip_audio" (job_dir ++ "/asr_clip.wav") false with
    | .error e => .error e
    | .ok (_, db1, fs1) =>
        let st : RunState := { db := db1, fs := fs1 }
        match reuse_parent_artifact st.db st.fs job.id parent_job_id parent_artifacts
            "transcript_raw" (job_dir ++ "/transcript_raw.txt") true with
        | .error e => .error e
        | .ok (none, _, _) => .error (.pipelineError "复用 transcript_raw 失败")
        | .ok (some reused_path, db2, fs2) => do
            let st : RunState := { db := db2, fs := fs2 }
            let transcript_raw ← read_text_or_fail st.fs reused_path "复用转写文本为空"
            pure (transcript_raw, st)

/-- The transcript_polish stage block of `execute_job`, yielding the
polished transcript. -/
def stage_polish (env : PipelineEnv) (st : RunState) (job : JobRec)
    (start_stage : JobStatus) (parent_job_id : String)
    (parent_artifacts : List (String × String)) (job_dir : String)
    (transcript_raw : String) : Except PyErr (String × RunState) := do
  if should_run_stage start_stage .transcript_polish then do
    let (polished_text, st) ←
      if env.enable_asr_polish then do
        let st ← set_stage st job.id .transcript_polish "ASR文本纠错中"
        let (polished_text, polish_raw_payload) ← env.polish_result
        let st := write_file st (job_dir ++ "/transcript_polish_response.json")
          (json_dumps polish_raw_payload)
        let trimmed := pyStrip polished_text
        pure (if trimmed != "" then trimmed else transcript_raw, st)
      else do
        let st ← set_stage st job.id .transcript_polish "ASR文本纠错已关闭，直接使用原始转写"
        pure (transcript_raw, st)
    let st := write_file st (job_dir ++ "/transcript_polished.txt") polished_text
    let st ← save_artifact st job.id "transcript_polished" (job_dir ++ "/transcript_polished.txt")
    pure (polished_text, st)
  else do
    let st ← set_stage st job.id .transcript_polish "跳过纠错，复用父任务文本"
    match reuse_parent_artifact st.db st.fs job.id parent_job_id parent_artifacts
        "transcript_polished" (job_dir ++ "/transcript_polished.txt") true with
    | .error e => .error e
    | .ok (none, _, _) => .error (.pipelineError "复用 transcript_polished 失败")
    | .ok (some reused_path, db1, fs1) => do
        let st : RunState := { db := db1, fs := fs1 }
        let polished_text ← read_text_or_fail st.fs reused_path "复用纠错文本为空"
        pure (polished_text, st)

/-- The script_gen stage block of `execute_job`, yielding the validated
script payload. -/
def stage_script (env : PipelineEnv) (st : RunState) (job : JobRec)
    (start_stage : JobStatus) (parent_job_id : String)
    (parent_artifacts : List (String × String)) (job_dir : String) :
    Except PyErr (JObj × RunState) := do
  if should_run_stage start_stage .script_gen then do
    let st ← set_stage st job.id .script_gen "生成前贴脚本中"
    let (script_text, script_raw_payload) ← env.script_result
    let st := write_file st (job_dir ++ "/script_gen_response.json") (json_dumps script_raw_payload)
    let parsed ← extract_first_json_object script_text
    let script_obj :=
      match parsed with
      | .obj kvs => kvs
      | _ => []
    let script_payload ← validate_script_payload script_obj
    let st := write_file st (job_dir ++ "/hook_script.json") (json_dumps (.obj script_payload))
    let st ← save_artifact st job.id "hook_script_json" (job_dir ++ "/hook_script.json")
    pure (script_payload, st)
  else do
    let st ← set_stage st job.id .script_gen "跳过脚本生成，复用父任务脚本"
    match reuse_parent_artifact st.db st.fs job.id parent_job_id parent_artifacts
        "hook_script_json" (job_dir ++ "/hook_script.json") true with
    | .error e => .error e
    | .ok (none, _, _) => .error (.pipelineError "复用 hook_script_json 失败")
    | .ok (some reused_path, db1, fs1) => do
        let st : RunState := { db := db1, fs := fs1 }
        match (fs_read st.fs reused_path).bind (fun content => json_loads content) with
        | none => .error (.pipelineError "复用脚本JSON解析失败")
        | some parsed =>
            match parsed with
            | .obj kvs => do
                let script_payload ← validate_script_payload kvs
                pure (script_payload, st)
            | _ => .error (.attributeError "reused script json is not a dict")

/-- The video_submit stage block of `execute_job`, yielding the task id. -/
def stage_video_submit (env : PipelineEnv) (st : RunState) (job : JobRec)
    (start_stage : JobStatus) (parent_job_id : String) (parent_meta : JObj)
    (job_dir : String) : Except PyErr (String × RunState) := do
  if should_run_stage start_stage .video_submit then do
    let st ← set_stage st job.id .video_submit "提交视频生成任务"
    let (task_id, submit_raw_payload) ← env.submit_result
    let st := write_file st (job_dir ++ "/video_submit_response.json") (json_dumps submit_raw_payload)
    match patch_meta st.db job.id [("video_task_id", .s task_id)] with
    | .error e => .error e
    | .ok db1 => pure (task_id, { st with db := db1 })
  else do
    let st ← set_stage st job.id .video_submit "跳过视频提交，复用父任务 task_id"
    let task_id := pyStrip (pyStrOrEmpty (jget parent_meta "video_task_id"))
    if task_id == "" then
      .error (.pipelineError ("重跑从 `" ++ start_stage.value
        ++ "` 开始需要复用 video_task_id，但父任务 `" ++ parent_job_id ++ "` 未记录"))
    else
      match patch_meta st.db job.id [("video_task_id", .s task_id)] with
      | .error e => .error e
      | .ok db1 => pure (task_id, { st with db := db1 })

/-- The video_polling stage block of `execute_job`, yielding the path of
the raw hook video. -/
def stage_video_polling (env : PipelineEnv) (st : RunState) (job : JobRec)
    (start_stage : JobStatus) (parent_job_id : String)
    (parent_artifacts : List (String × String)) (job_dir : String)
    (task_id : String) : Except PyErr (String × RunState) := do
  if should_run_stage start_stage .video_polling then do
    let st ← set_stage st job.id .video_polling ("轮询视频任务中: " ++ task_id)
    let video_result ← env.poll_result
    let st := write_file st (job_dir ++ "/video_poll_response.json") (json_dumps video_result)
    let video_url ← extract_video_url video_result
    let bytes ← env.download video_url
    let st := write_file st (job_dir ++ "/hook_video_raw.mp4") bytes
    let st ← save_artifact st job.id "hook_video_raw" (job_dir ++ "/hook_video_raw.mp4")
    pure (job_dir ++ "/hook_video_raw.mp4", st)
  else do
    let st ← set_stage st job.id .video_polling "跳过视频轮询，复用父任务前贴视频"
    match reuse_parent_artifact st.db st.fs job.id parent_job_id parent_artifacts
        "hook_video_raw" (job_dir ++ "/hook_video_raw.mp4") true with
    | .error e => .error e
    | .ok (none, _, _) => .error (.pipelineError "复用 hook_video_raw 失败")
    | .ok (some reused_path, db1, fs1) => pure (reused_path, { db := db1, fs := fs1 })

/-- The postprocess block of `execute_job` (always runs). -/
def stage_postprocess (env : PipelineEnv) (st : RunState) (job : JobRec)
    (job_dir : String) : Except PyErr RunState := do
  let st ← set_stage st job.id .postprocess "标准化前贴并拼接成片"
  let srcNorm ← env.normalize_source_out
  let st := write_file st (job_dir ++ "/source_video_norm.mp4") srcNorm
  let hookNorm ← env.normalize_hook_out
  let st := write_file st (job_dir ++ "/hook_video_norm.mp4") hookNorm
  let st ← save_artifact st job.id "hook_video_norm" (job_dir ++ "/hook_video_norm.mp4")
  let finalBytes ← env.concat_out
  let st := write_file st (job_dir ++ "/final_video.mp4") finalBytes
  let st ← save_artifact st job.id "final_video" (job_dir ++ "/final_video.mp4")
  match set_job_status st.db job.id JobStatus.completed.value "任务完成，成片已输出" with
  | .error e => .error e
  | .ok db1 => .ok { st with db := db1 }

/-- The body of `pipeline.execute_job`'s `try` block. -/
def execute_job_inner (env : PipelineEnv) (st : RunState) (job_id : String) :
    Except PyErr RunState := do
  match db_get_job st.db job_id with
  | none => .ok st
  | some job0 =>
      let st : RunState :=
        { st with db := db_update_job st.db job_id (fun j => { j with error_message := none }) }
      let job : JobRec := { job0 with error_message := none }
      let job_dir := env.jobs_root ++ "/" ++ job.id
      let start_stage := normalize_start_stage (jget job.meta "rerun_start_stage")
      let parent_job_id := pyStrip (pyStrOrEmpty (jget job.meta "rerun_of_job_id"))
      let parentInfo : Except PyErr (JObj × List (String × String) × RunState) :=
        if parent_job_id != "" then
          match db_get_job st.db parent_job_id with
          | none => .error (.pipelineError ("重跑父任务不存在: " ++ parent_job_id))
          | some parent_job =>
              let msg := "重跑任务：从 `" ++ start_stage.value ++ "` 开始，复用父任务 `"
                ++ parent_job_id ++ "` 产物"
              .ok (parent_job.meta, parent_job.artifacts,
                { st with db := append_event st.db job.id JobStatus.queued.value msg })
        else .ok ([], [], st)
      match parentInfo with
      | .error e => .error e
      | .ok (parent_meta, parent_artifacts, st) =>
          if ! fs_exists st.fs job.source_path then
            .error (.pipelineError ("源视频不存在: " ++ job.source_path))
          else if ! env.ffmpeg_ok || ! env.ffprobe_ok then
            .error (.pipelineError "ffmpeg 或 ffprobe 不可用，请先安装")
          else do
            let st ← save_artifact st job.id "source_video" job.source_path
            let (_source_meta, st) ← stage_preprocessing env st job start_stage parent_meta job_dir
            let (transcript_raw, st) ←
              stage_asr env st job start_stage parent_job_id parent_artifacts job_dir
            let (_polished_text, st) ←
              stage_polish env st job start_stage parent_job_id parent_artifacts job_dir transcript_raw
            let (_script_payload, st) ←
              stage_script env st job start_stage parent_job_id parent_artifacts job_dir
            let (task_id, st) ←
              stage_video_submit env st job start_stage parent_job_id parent_meta job_dir
            let (_hook_raw_path, st) ←
              stage_video_polling env st job start_stage parent_job_id parent_artifacts job_dir task_id
            stage_postprocess env st job job_dir

/-- `pipeline.execute_job`: run the job to a terminal state; on an
exception, record the error on the job (ignoring a failure to do so) and
re-raise. -/
def execute_job (env : PipelineEnv) (st : RunState) (job_id : String) :
    Except PyErr Unit × RunState :=
  match execute_job_inner env st job_id with
  | .ok st1 => (.ok (), st1)
  | .error e =>
      match set_job_error st.db job_id (pyErrMsg e) with
      | .ok db1 => (.error e, { st with db := db1 })
      | .error _ => (.error e, st)

/-! ### Concrete instances used by witnesses and counterexamples -/

/-- A pipeline environment in which every external call succeeds
trivially. -/
def trivialPipelineEnv : PipelineEnv :=
  { jobs_root := "runtime/jobs"
    enable_asr_polish := true
    ffmpeg_ok := true
    ffprobe_ok := true
    probe := fun _ => .ok ⟨1080, 1920, 30, 10, true⟩
    extract_wav := .ok "wav-bytes"
    asr_result := .ok [("result", .obj [("text", .s "hello")])]
    polish_result := .ok ("polished", .obj [])
    script_result := .ok ("{}", .obj [])
    submit_result := .ok ("t1", .obj [])
    poll_result := .ok (.obj [])
    download := fun _ => .ok "mp4-bytes"
    normalize_source_out := .ok "norm-src"
    normalize_hook_out := .ok "norm-hook"
    concat_out := .ok "final-bytes" }

/-- An empty job store and filesystem. -/
def trivialRunState : RunState := { db := { jobs := [], events := [] }, fs := { files := [] } }

/-- C3 counterexample payload: the six required fields all valid, plus one
extra key. -/
def scriptPayloadWithExtraKey : JObj :=
  [("hook_title", .s "t"), ("visual_prompt", .s "v"), ("shot_list", .arr []),
   ("narration", .s "n"), ("style_tags", .arr []), ("safety_notes", .s "s"),
   ("extra_key", .i 1)]

/-- C4 scenario oracle: the first two POSTs are rejected with 422, the
third succeeds with a task id, later POSTs would be fatal server errors. -/
def c4post : Nat → HResp
  | 1 => { status_code := 422, headers := [], body := "bad1" }
  | 2 => { status_code := 422, headers := [], body := "bad2" }
  | 3 => { status_code := 200, headers := [], body := "\x7b\"task_id\": \"tid-3\"\x7d" }
  | _ => { status_code := 500, headers := [], body := "server-error" }

/-- The aggregated permission-failure message `ASRClient.recognize` raises
when every candidate fails both paths with permission-class errors. -/
def asr_aggregate_message (oracle : ASROracle) (cfg : ASRConfig) : String :=
  "ASR resource is not granted for current credentials. Tried resource_id(s): "
    ++ pyJoin "," (candidate_resource_ids cfg) ++ ". Details: "
    ++ pyTake (pyJoin " | "
        ((candidate_resource_ids cfg).map
            (fun rid => try_error_line "flash" rid (oracle.flash rid))
          ++ (candidate_resource_ids cfg).map
            (fun rid => try_error_line "submit" rid (oracle.submit rid)))) 1400
    ++ ". Please use an ASR app/token with granted resourceId from Volcengine Speech Console."

/-- A permission-class failure response: HTTP 403 whose body names a
missing grant. -/
def permResp : HResp :=
  { status_code := 403, headers := [], body := "requested grant not found" }

/-- C7 witness ASR config. -/
def c7cfg : ASRConfig := { appid := "app", access_token := "tok" }

/-- C7 witness oracle: every call fails with a permission-class error. -/
def c7oracle : ASROracle :=
  { flash := fun _ => permResp, submit := fun _ => permResp, query := fun _ _ => permResp }

/-- C1 scenario: a completed parent job whose `transcript_polished`
artifact is recorded in the map but missing on disk. -/
def c1parent : JobRec :=
  { id := "p1", source_path := "src.mp4", asr_clip_seconds := 15, hook_clip_seconds := 5,
    status := "completed", error_message := none,
    artifacts := [("transcript_raw", "pdir/tr.txt"), ("transcript_polished", "pdir/tp.txt")],
    meta := [("source_meta", .obj [("width", .i 720), ("height", .i 1280), ("fps", .i 30),
      ("duration", .i 10), ("has_audio", .b true)])] }

/-- C1 scenario: a rerun of `p1` starting at `script_gen`. -/
def c1job : JobRec :=
  { id := "j1", source_path := "src.mp4", asr_clip_seconds := 15, hook_clip_seconds := 5,
    status := "queued", error_message := none, artifacts := [],
    meta := [("rerun_of_job_id", .s "p1"), ("rerun_start_stage", .s "script_gen")] }

/-- C1 scenario store and filesystem: the parent's raw transcript exists on
disk, its polished transcript does not. -/
def c1state : RunState :=
  { db := { jobs := [c1job, c1parent], events := [] },
    fs := { files := [("src.mp4", "SRCBYTES"), ("pdir/tr.txt", "raw text")] } }

/-- C2 scenario: every candidate's submit is accepted. -/
def c2submit : String → HResp := fun _ =>
  { status_code := 200, headers := [("X-Api-Status-Code", "20000000")], body := "" }

/-- C2 scenario: candidate `a` polls as processing forever, while
candidate `b` would return a terminal transcript at once. -/
def c2query : String → Nat → HResp := fun rid _ =>
  if rid == "a" then
    { status_code := 200, headers := [("X-Api-Status-Code", "20000001")], body := "" }
  else
    { status_code := 200, headers := [("X-Api-Status-Code", "20000000")],
      body := "\x7b\"result\": \x7b\"text\": \"hi\"\x7d\x7d" }

/-- C2 scenario ASR config with a 5 second timeout. -/
def c2cfg : ASRConfig := { appid := "app", access_token := "tok", timeout_s := 5 }

/-- C6 witness oracle: every poll GET returns 200 with an uppercase
terminal status and a download URL. -/
def c6get : Nat → HResp := fun _ =>
  { status_code := 200, headers := [],
    body := "\x7b\"status\": \"SUCCEEDED\", \"video_url\": \"https://x/y.mp4\"\x7d" }

/-! ### Shared lemmas -/

theorem toList_append (a b : String) : (a ++ b).toList = a.toList ++ b.toList := by
  cases a; cases b; rfl

theorem pyContains_iff {h n : String} : pyContains h n = true ↔ n.toList <:+: h.toList := by
  simp [pyContains]

theorem infix_append_left {α : Type} {l t : List α} (s : List α) (h : l <:+: t) :
    l <:+: s ++ t := by
  rcases h with ⟨u, v, rfl⟩
  exact ⟨s ++ u, v, by simp⟩

theorem infix_append_right {α : Type} {l t : List α} (s : List α) (h : l <:+: t) :
    l <:+: t ++ s := by
  rcases h with ⟨u, v, rfl⟩
  exact ⟨u, v ++ s, by simp⟩

theorem infix_pyJoin {sep : String} {l : List String} {x : String} (hx : x ∈ l) :
    x.toList <:+: (pyJoin sep l).toList := by
  induction l with
  | nil => cases hx
  | cons a rest ih =>
      cases rest with
      | nil =>
          rcases List.mem_singleton.mp hx with rfl
          exact List.infix_refl _
      | cons b r =>
          rcases List.mem_cons.mp hx with rfl | hx'
          · show x.toList <:+: (x ++ sep ++ pyJoin sep (b :: r)).toList
            rw [toList_append, toList_append]
            exact ((List.prefix_append _ _).trans (List.prefix_append _ _)).isInfix
          · show x.toList <:+: (a ++ sep ++ pyJoin sep (b :: r)).toList
            rw [toList_append]
            exact infix_append_left _ (ih hx')

theorem pyContains_pyJoin_of_mem {sep pre post : String} {l : List String} {x : String}
    (hx : x ∈ l) : pyContains (pre ++ pyJoin sep l ++ post) x = true := by
  rw [pyContains_iff, toList_append, toList_append]
  exact infix_append_right _ (infix_append_left _ (infix_pyJoin hx))

/-! ### C8: start stage resolution -/

theorem find_stage_self (stage : JobStatus) (h : stage ∈ STAGE_SEQUENCE) :
    STAGE_SEQUENCE.find? (fun st => st.value == stage.value) = some stage := by
  fin_cases h <;> rfl

/-- C8: every resolved start stage is a member of the fixed stage order; a
missing `meta.rerun_start_stage` resolves to `preprocessing`; a string
value equal after trimming and lowercasing to one of the seven stage names
resolves to that stage; any other string falls back to `preprocessing`
rather than raising. -/
theorem normalize_start_stage_spec :
    (∀ value : Option JVal, normalize_start_stage value ∈ STAGE_SEQUENCE)
    ∧ normalize_start_stage none = JobStatus.preprocessing
    ∧ (∀ stage ∈ STAGE_SEQUENCE, ∀ t : String,
        pyLower (pyStrip t) = stage.value → normalize_start_stage (some (.s t)) = stage)
    ∧ (∀ t : String, (∀ stage ∈ STAGE_SEQUENCE, pyLower (pyStrip t) ≠ stage.value) →
        normalize_start_stage (some (.s t)) = JobStatus.preprocessing) := by
  refine ⟨?_, by decide, ?_, ?_⟩
  · intro value
    unfold normalize_start_stage
    rcases hf : STAGE_SEQUENCE.find? (fun status => status.value ==
        pyLower (pyStrip (if pyTruthy value then pyStr (value.getD .null)
          else JobStatus.preprocessing.value))) with _ | st
    · simp only [hf]
      decide
    · simp only [hf]
      exact List.mem_of_find?_eq_some hf
  · intro stage hst t ht
    by_cases h0 : t = ""
    · subst h0
      exact absurd ht (by fin_cases hst <;> decide)
    · have htruthy : pyTruthy (some (JVal.s t)) = true := by
        simp [pyTruthy, h0]
      unfold normalize_start_stage
      rw [htruthy]
      simp only [if_true, Option.getD_some, pyStr, ht, find_stage_self stage hst]
  · intro t hne
    by_cases h0 : t = ""
    · subst h0
      decide
    · have htruthy : pyTruthy (some (JVal.s t)) = true := by
        simp [pyTruthy, h0]
      have hnone : STAGE_SEQUENCE.find? (fun st => st.value == pyLower (pyStrip t)) = none := by
        rw [List.find?_eq_none]
        intro x hx
        simpa using (hne x hx).symm
      unfold normalize_start_stage
      rw [htruthy]
      simp only [if_true, Option.getD_some, pyStr, hnone]

/-- C8 witness: concrete resolutions through `normalize_start_stage_spec`. -/
theorem normalize_start_stage_spec_witness :
    normalize_start_stage (some (.s "  SCRIPT_GEN ")) = JobStatus.script_gen
    ∧ normalize_start_stage (some (.s "unknown")) = JobStatus.preprocessing :=
  ⟨normalize_start_stage_spec.2.2.1 .script_gen (by decide) "  SCRIPT_GEN " (by decide),
   normalize_start_stage_spec.2.2.2 "unknown" (by decide)⟩

/-! ### C3: script payload validation -/

theorem validate_isOk_eq (payload : JObj) :
    (validate_script_payload payload).isOk =
      ((missing_fields payload).isEmpty && isArrValue (jget payload "shot_list")
        && isArrValue (jget payload "style_tags")
        && (["hook_title", "visual_prompt", "narration", "safety_notes"].all
              (fun k => isNonblankStrValue (jget payload k)))) := by
  unfold validate_script_payload
  cases hm : (missing_fields payload).isEmpty <;> simp only [hm, Bool.not_true, Bool.not_false,
    Bool.false_and, Bool.true_and, if_true, if_false, Except.isOk]
  · rfl
  · cases h1 : isArrValue (jget payload "shot_list") <;>
      cases h2 : isArrValue (jget payload "style_tags") <;>
        simp only [h1, h2, Bool.not_true, Bool.not_false, Bool.false_and, Bool.true_and,
          if_true, if_false] <;> try rfl
    unfold scalar_fields_check
    cases g1 : isNonblankStrValue (jget payload "hook_title") <;>
      simp only [g1, if_true, if_false, List.all_cons, Bool.false_and, Bool.true_and] <;>
        try rfl
    unfold scalar_fields_check
    cases g2 : isNonblankStrValue (jget payload "visual_prompt") <;>
      simp only [g2, if_true, if_false, List.all_cons, Bool.false_and, Bool.true_and] <;>
        try rfl
    unfold scalar_fields_check
    cases g3 : isNonblankStrValue (jget payload "narration") <;>
      simp only [g3, if_true, if_false, List.all_cons, Bool.false_and, Bool.true_and] <;>
        try rfl
    unfold scalar_fields_check
    cases g4 : isNonblankStrValue (jget payload "safety_notes") <;>
      simp only [g4, if_true, if_false, List.all_cons, List.all_nil, Bool.false_and,
        Bool.true_and, Bool.and_true] <;> rfl

/-- C3 counterexample: a payload whose key set is a strict superset of the
required keys is accepted, so acceptance does not require containing
exactly the required keys. -/
theorem validate_script_payload_extra_key_accepted :
    validate_script_payload scriptPayloadWithExtraKey = .ok scriptPayloadWithExtraKey
    ∧ "extra_key" ∈ scriptPayloadWithExtraKey.map Prod.fst
    ∧ "extra_key" ∉ REQUIRED_FIELDS_SORTED :=
  ⟨rfl, by decide, by decide⟩

/-- C3 (amended): `validate_script_payload` accepts a payload iff it
contains at least the six required keys, `shot_list` and `style_tags` are
arrays, and the four scalar text fields are non-empty strings after
trimming (extra keys are permitted); when required keys are missing it
raises a schema error whose message names all of the missing keys. -/
theorem validate_script_payload_spec (payload : JObj) :
    ((validate_script_payload payload).isOk = true ↔
      ((∀ k ∈ REQUIRED_FIELDS_SORTED, (jget payload k).isSome = true)
        ∧ isArrValue (jget payload "shot_list") = true
        ∧ isArrValue (jget payload "style_tags") = true
        ∧ ∀ k ∈ (["hook_title", "visual_prompt", "narration", "safety_notes"] : List String),
            isNonblankStrValue (jget payload k) = true))
    ∧ (missing_fields payload ≠ [] →
        validate_script_payload payload =
          .error (.scriptSchemaError ("missing fields: " ++ pyJoin ", " (missing_fields payload)))
        ∧ ∀ k ∈ missing_fields payload,
            pyContains ("missing fields: " ++ pyJoin ", " (missing_fields payload)) k = true) := by
  constructor
  · rw [validate_isOk_eq]
    simp only [Bool.and_eq_true, List.all_eq_true, List.isEmpty_iff]
    constructor
    · rintro ⟨⟨⟨hm, h1⟩, h2⟩, h4⟩
      refine ⟨?_, h1, h2, h4⟩
      intro k hk
      by_contra hno
      have : k ∈ missing_fields payload := by
        rw [missing_fields, List.mem_filter]
        exact ⟨hk, by simpa using hno⟩
      rw [hm] at this
      cases this
    · rintro ⟨hreq, h1, h2, h4⟩
      refine ⟨⟨⟨?_, h1⟩, h2⟩, h4⟩
      rw [missing_fields, List.filter_eq_nil_iff]
      intro k hk
      have h' := hreq k hk
      cases hjk : jget payload k with
      | none => rw [hjk] at h'; cases h'
      | some v => simp [hjk]
  · intro hm
    have hm' : (missing_fields payload).isEmpty = false := by
      cases hmm : (missing_fields payload).isEmpty
      · rfl
      · exact absurd (List.isEmpty_iff.mp hmm) hm
    constructor
    · unfold validate_script_payload
      simp only [hm', Bool.not_false, if_true]
    · intro k hk
      have : pyContains ("missing fields: " ++ pyJoin ", " (missing_fields payload) ++ "") k
          = true := pyContains_pyJoin_of_mem hk
      simpa using this

/-- C3 witness: the amended theorem applied at a payload missing four
fields. -/
theorem validate_script_payload_spec_witness :
    missing_fields [("hook_title", JVal.s "x"), ("visual_prompt", JVal.s "y")] ≠ []
    ∧ validate_script_payload [("hook_title", JVal.s "x"), ("visual_prompt", JVal.s "y")] =
        .error (.scriptSchemaError "missing fields: narration, safety_notes, shot_list, style_tags") :=
  ⟨by decide,
   by
    have h := (validate_script_payload_spec
      [("hook_title", JVal.s "x"), ("visual_prompt", JVal.s "y")]).2 (by decide)
    simpa using h.1⟩

/-! ### C5: first JSON object extraction -/

theorem parseJValue_backtick (fuel : Nat) (rest : List Char) :
    parseJValue fuel ('`' :: rest) = none := by
  cases fuel with
  | zero => rfl
  | succ n => rfl

theorem json_loads_ne_empty {v : JVal} (h : json_loads "" = some v) : False := by
  rw [show json_loads "" = none from rfl] at h
  cases h

theorem json_loads_not_backtick {text : String} {v : JVal}
    (h : json_loads text = some v) :
    pyStartsWith text "```" = false := by
  cases hb : pyStartsWith text "```"
  · rfl
  · exfalso
    have hpre : "```".toList <+: text.toList :=
      List.isPrefixOf_iff_prefix.mp (by simpa [pyStartsWith] using hb)
    rcases hpre with ⟨u, hu⟩
    have htl : text.toList = '`' :: '`' :: '`' :: u := by
      rw [← hu]; rfl
    rw [json_loads, htl] at h
    simp [skipWs, isJsonWs, parseJValue_backtick] at h

theorem fence_stripped_of_loads {text : String} {v : JVal}
    (hstrip : pyStrip text = text) (h : json_loads text = some v) :
    fence_stripped text = text := by
  unfold fence_stripped
  simp [hstrip, json_loads_not_backtick h]

theorem brace_span_fallback_sound {t : String} {v : JVal}
    (hv : brace_span_fallback t = .ok v) :
    ∃ kvs, v = JVal.obj kvs ∧ ∃ span, regex_brace_span t.toList = some span
      ∧ json_loads (String.mk span) = some (JVal.obj kvs) := by
  unfold brace_span_fallback at hv
  cases hspan : regex_brace_span t.toList with
  | none => rw [hspan] at hv; cases hv
  | some span =>
      simp only [hspan] at hv
      cases hload : json_loads (String.mk span) with
      | none => simp only [hload] at hv; cases hv
      | some w =>
          simp only [hload] at hv
          cases w with
          | obj kvs => exact ⟨kvs, (Except.ok.inj hv).symm, span, rfl, hload⟩
          | s a => cases hv
          | i a => cases hv
          | f a => cases hv
          | b a => cases hv
          | null => cases hv
          | arr a => cases hv

/-- C5: `extract_first_json_object` returns an already-valid JSON object
text's object unchanged (idempotence on valid JSON); any object it returns
was parsed either from the whole fence-stripped text or from the greedy
first-to-last brace span (never a partial object); and when neither parse
yields an object the result is an error. -/
theorem extract_first_json_object_spec (text : String) :
    (pyStrip text = text → ∀ kvs, json_loads text = some (JVal.obj kvs) →
        extract_first_json_object text = .ok (JVal.obj kvs))
    ∧ (∀ v, extract_first_json_object text = .ok v →
        ∃ kvs, v = JVal.obj kvs ∧
          (json_loads (fence_stripped text) = some (JVal.obj kvs)
            ∨ ∃ span, regex_brace_span (fence_stripped text).toList = some span
                ∧ json_loads (String.mk span) = some (JVal.obj kvs)))
    ∧ ((∀ kvs, json_loads (fence_stripped text) ≠ some (JVal.obj kvs)) →
        (∀ kvs span, regex_brace_span (fence_stripped text).toList = some span →
            json_loads (String.mk span) ≠ some (JVal.obj kvs)) →
        (extract_first_json_object text).isOk = false) := by
  have sound : ∀ v, extract_first_json_object text = .ok v →
      ∃ kvs, v = JVal.obj kvs ∧
        (json_loads (fence_stripped text) = some (JVal.obj kvs)
          ∨ ∃ span, regex_brace_span (fence_stripped text).toList = some span
              ∧ json_loads (String.mk span) = some (JVal.obj kvs)) := by
    intro v hv
    unfold extract_first_json_object at hv
    cases h0 : (pyStrip text == "") with
    | true => simp only [h0, if_true] at hv; cases hv
    | false =>
        simp only [h0, Bool.false_eq_true, if_false] at hv
        have hfall : brace_span_fallback (fence_stripped text) = .ok v →
            ∃ kvs, v = JVal.obj kvs ∧
              (json_loads (fence_stripped text) = some (JVal.obj kvs)
                ∨ ∃ span, regex_brace_span (fence_stripped text).toList = some span
                    ∧ json_loads (String.mk span) = some (JVal.obj kvs)) := by
          intro hv'
          rcases brace_span_fallback_sound hv' with ⟨kvs, rfl, span, hspan, hload⟩
          exact ⟨kvs, rfl, Or.inr ⟨span, hspan, hload⟩⟩
        cases hw : json_loads (fence_stripped text) with
        | some w =>
            cases w with
            | obj kvs =>
                simp only [hw] at hv
                exact ⟨kvs, (Except.ok.inj hv).symm, Or.inl rfl⟩
            | s a => simp only [hw] at hv; exact hw ▸ hfall hv
            | i a => simp only [hw] at hv; exact hw ▸ hfall hv
            | f a => simp only [hw] at hv; exact hw ▸ hfall hv
            | b a => simp only [hw] at hv; exact hw ▸ hfall hv
            | null => simp only [hw] at hv; exact hw ▸ hfall hv
            | arr a => simp only [hw] at hv; exact hw ▸ hfall hv
        | none => simp only [hw] at hv; exact hw ▸ hfall hv
  refine ⟨?_, sound, ?_⟩
  · intro hstrip kvs h
    have hne : (pyStrip text == "") = false := by
      cases he : (pyStrip text == "")
      · rfl
      · exfalso
        have : pyStrip text = "" := by simpa using he
        rw [hstrip] at this
        rw [this] at h
        exact json_loads_ne_empty h
    unfold extract_first_json_object
    simp only [hne, Bool.false_eq_true, if_false]
    rw [fence_stripped_of_loads hstrip h, h]
  · intro h1 h2
    cases hok : (extract_first_json_object text) with
    | error e => rfl
    | ok v =>
        rcases sound v hok with ⟨kvs, rfl, hcase | ⟨span, hspan, hload⟩⟩
        · exact absurd hcase (h1 kvs)
        · exact absurd hload (h2 kvs span hspan)

/-- C5 witness: idempotence on a concrete valid JSON object text via
`extract_first_json_object_spec`. -/
theorem extract_first_json_object_spec_witness :
    extract_first_json_object "\x7b\"a\": 1\x7d" = .ok (JVal.obj [("a", JVal.i 1)]) :=
  (extract_first_json_object_spec "\x7b\"a\": 1\x7d").1 (by decide) [("a", JVal.i 1)] rfl

/-! ### C4: video submit payload fallback -/

theorem submit_go_all_422 (post : Nat → HResp) :
    ∀ (payloads : List JVal) (idx : Nat) (ae : List String),
      (∀ k, k < payloads.length → (post (idx + k)).status_code = 422) →
      submit_generation_go post payloads idx ae = .error (.volcAPIError
        ("Video submit failed after payload fallbacks. " ++ pyTake (pyJoin " | "
          (ae ++ (List.range payloads.length).map (fun k =>
            "attempt=" ++ toString (idx + k) ++ ":http="
              ++ toString (post (idx + k)).status_code ++ ":msg="
              ++ pyTake (post (idx + k)).body 220))) 1200)) := by
  intro payloads
  induction payloads with
  | nil =>
      intro idx ae _
      simp [submit_generation_go]
  | cons p rest ih =>
      intro idx ae h
      have h0 : (post idx).status_code = 422 := by simpa using h 0 (by simp)
      have hshift : ∀ k, k < rest.length → (post (idx + 1 + k)).status_code = 422 := by
        intro k hk
        have h' := h (k + 1) (by simpa using Nat.succ_lt_succ hk)
        have e : idx + (k + 1) = idx + 1 + k := by omega
        rwa [e] at h'
      have hrange : (List.range (rest.length + 1)).map (fun k =>
          "attempt=" ++ toString (idx + k) ++ ":http="
            ++ toString (post (idx + k)).status_code ++ ":msg="
            ++ pyTake (post (idx + k)).body 220)
          = ("attempt=" ++ toString idx ++ ":http=" ++ toString (post idx).status_code
              ++ ":msg=" ++ pyTake (post idx).body 220)
            :: (List.range rest.length).map (fun k =>
              "attempt=" ++ toString (idx + 1 + k) ++ ":http="
                ++ toString (post (idx + 1 + k)).status_code ++ ":msg="
                ++ pyTake (post (idx + 1 + k)).body 220) := by
        rw [List.range_succ_eq_map, List.map_cons, List.map_map]
        simp only [Nat.add_zero]
        congr 1
        refine List.map_congr_left ?_
        intro k _
        simp only [Function.comp, Nat.succ_eq_add_one]
        have e : idx + (k + 1) = idx + 1 + k := by omega
        rw [e]
      simp only [submit_generation_go]
      rw [if_pos (by omega : (post idx).status_code ≥ 400)]
      have hcond : ((post idx).status_code == 400 || (post idx).status_code == 422) = true := by
        simp [h0]
      rw [hcond]
      simp only [if_true]
      rw [ih (idx + 1) _ hshift]
      rw [List.length_cons, hrange]
      simp [List.append_assoc]

/-- C4: the submit loop advances to the next payload variant exactly on a
400/422 response (recording the attempt), any other error status is
immediately fatal, success is a string found under a `task_id`/`id` key
anywhere in the response body, exhausting all variants with 422s yields one
aggregated error listing each attempt's status and truncated body, and in
the concrete 422/422/succeed scenario the third variant's task id is
returned with the two prior attempts recorded. -/
theorem submit_generation_fallback_spec :
    (∀ (post : Nat → HResp) (p : JVal) (rest : List JVal) (idx : Nat) (ae : List String),
        (post idx).status_code ≥ 400 → (post idx).status_code ≠ 400 →
        (post idx).status_code ≠ 422 →
        submit_generation_go post (p :: rest) idx ae = .error (.volcAPIError
          ("Video submit failed: " ++ toString (post idx).status_code ++ " "
            ++ pyTake (post idx).body 500)))
    ∧ (∀ (post : Nat → HResp) (p : JVal) (rest : List JVal) (idx : Nat) (ae : List String),
        ((post idx).status_code = 400 ∨ (post idx).status_code = 422) →
        submit_generation_go post (p :: rest) idx ae =
          submit_generation_go post rest (idx + 1) (ae ++ ["attempt=" ++ toString idx
            ++ ":http=" ++ toString (post idx).status_code ++ ":msg="
            ++ pyTake (post idx).body 220]))
    ∧ (∀ (post : Nat → HResp) (p : JVal) (rest : List JVal) (idx : Nat) (ae : List String)
        (data : JVal) (task_id : String),
        (post idx).status_code < 400 → json_loads (post idx).body = some data →
        first_string (deep_find ["task_id", "id"] data) = some task_id →
        submit_generation_go post (p :: rest) idx ae = .ok (task_id, data))
    ∧ (∀ (post : Nat → HResp) (payloads : List JVal),
        (∀ k, k < payloads.length → (post (1 + k)).status_code = 422) →
        submit_generation_go post payloads 1 [] = .error (.volcAPIError
          ("Video submit failed after payload fallbacks. " ++ pyTake (pyJoin " | "
            ((List.range payloads.length).map (fun k =>
              "attempt=" ++ toString (1 + k) ++ ":http="
                ++ toString (post (1 + k)).status_code ++ ":msg="
                ++ pyTake (post (1 + k)).body 220))) 1200)))
    ∧ (∀ cfg prompt d w h, submit_generation c4post cfg prompt d w h =
        .ok ("tid-3", JVal.obj [("task_id", JVal.s "tid-3")])
        ∧ submit_generation_go c4post (submit_payload_candidates cfg prompt d w h) 1 [] =
            submit_generation_go c4post
              ((submit_payload_candidates cfg prompt d w h).drop 2) 3
              ["attempt=1:http=422:msg=bad1", "attempt=2:http=422:msg=bad2"]) := by
  have advance : ∀ (post : Nat → HResp) (p : JVal) (rest : List JVal) (idx : Nat)
      (ae : List String),
      ((post idx).status_code = 400 ∨ (post idx).status_code = 422) →
      submit_generation_go post (p :: rest) idx ae =
        submit_generation_go post rest (idx + 1) (ae ++ ["attempt=" ++ toString idx
          ++ ":http=" ++ toString (post idx).status_code ++ ":msg="
          ++ pyTake (post idx).body 220]) := by
    intro post p rest idx ae hcode
    have hge : (post idx).status_code ≥ 400 := by rcases hcode with h | h <;> omega
    have hcond : ((post idx).status_code == 400 || (post idx).status_code == 422) = true := by
      rcases hcode with h | h <;> simp [h]
    simp only [submit_generation_go]
    rw [if_pos hge, hcond]
    simp
  refine ⟨?_, advance, ?_, ?_, ?_⟩
  · intro post p rest idx ae hge h400 h422
    unfold submit_generation_go
    rw [if_pos hge]
    have : ((post idx).status_code == 400 || (post idx).status_code == 422) = false := by
      simp [h400, h422]
    rw [this]
    simp
  · intro post p rest idx ae data task_id hlt hload hfind
    unfold submit_generation_go
    rw [if_neg (by omega : ¬ (post idx).status_code ≥ 400), hload]
    simp only [hfind]
  · intro post payloads h
    simpa using submit_go_all_422 post payloads 1 [] h
  · intro cfg prompt d w h
    constructor
    · rfl
    · rfl

/-- C4 witness: the fatal-error and success clauses of
`submit_generation_fallback_spec` applied at concrete responses. -/
theorem submit_generation_fallback_spec_witness :
    submit_generation_go c4post [JVal.null] 4 [] = .error (.volcAPIError
      ("Video submit failed: 500 " ++ pyTake "server-error" 500))
    ∧ submit_generation_go c4post [JVal.null] 3 [] =
        .ok ("tid-3", JVal.obj [("task_id", JVal.s "tid-3")]) :=
  ⟨submit_generation_fallback_spec.1 c4post JVal.null [] 4 []
      (by decide) (by decide) (by decide),
   submit_generation_fallback_spec.2.2.1 c4post JVal.null [] 3 []
      (JVal.obj [("task_id", JVal.s "tid-3")]) "tid-3" (by decide) rfl rfl⟩

/-! ### C6: video poll loop -/

theorem poll_go_success {get : Nat → HResp} {deadline interval : Int} {fuel n : Nat} {p : JVal}
    (hlt : (get n).status_code < 400) (hload : json_loads (get n).body = some p)
    (hs : poll_status_of p ∈ VIDEO_SUCCESS_STATUS) :
    poll_until_done_go get deadline interval (fuel + 1) n = .ok p := by
  simp only [poll_until_done_go]
  rw [if_neg (by omega : ¬ (get n).status_code ≥ 400)]
  simp only [hload]
  simp only [poll_status_of] at hs
  rw [if_pos hs]

theorem poll_go_failure {get : Nat → HResp} {deadline interval : Int} {fuel n : Nat} {p : JVal}
    (hlt : (get n).status_code < 400) (hload : json_loads (get n).body = some p)
    (hns : poll_status_of p ∉ VIDEO_SUCCESS_STATUS) (hf : poll_status_of p ∈ VIDEO_FAILURE_STATUS) :
    poll_until_done_go get deadline interval (fuel + 1) n = .error (.volcAPIError
      ("Video generation failed: status=" ++ poll_status_of p)) := by
  simp only [poll_until_done_go]
  rw [if_neg (by omega : ¬ (get n).status_code ≥ 400)]
  simp only [hload]
  simp only [poll_status_of] at hns hf ⊢
  rw [if_neg hns, if_pos hf]

theorem poll_go_step {get : Nat → HResp} {deadline interval : Int} {fuel n : Nat}
    (hnt : poll_nonterminal (get n)) (hd : ¬ ((n : Int) * interval > deadline)) :
    poll_until_done_go get deadline interval (fuel + 1) n =
      poll_until_done_go get deadline interval fuel (n + 1) := by
  rcases hnt with ⟨hlt, p, hload, hns, hnf⟩
  simp only [poll_until_done_go]
  rw [if_neg (by omega : ¬ (get n).status_code ≥ 400)]
  simp only [hload]
  simp only [poll_status_of] at hns hnf
  rw [if_neg hns, if_neg hnf, if_neg hd]

theorem poll_go_timeout {get : Nat → HResp} {deadline interval : Int} {fuel n : Nat}
    (hnt : poll_nonterminal (get n)) (hd : (n : Int) * interval > deadline) :
    poll_until_done_go get deadline interval (fuel + 1) n =
      .error (.volcAPIError "Video generation timed out") := by
  rcases hnt with ⟨hlt, p, hload, hns, hnf⟩
  simp only [poll_until_done_go]
  rw [if_neg (by omega : ¬ (get n).status_code ≥ 400)]
  simp only [hload]
  simp only [poll_status_of] at hns hnf
  rw [if_neg hns, if_neg hnf, if_pos hd]

theorem poll_go_steps {get : Nat → HResp} {deadline interval : Int} :
    ∀ (j fuel n : Nat),
      (∀ m, m < j → poll_nonterminal (get (n + m))
        ∧ ((n + m : Nat) : Int) * interval ≤ deadline) →
      poll_until_done_go get deadline interval (fuel + j) n =
        poll_until_done_go get deadline interval fuel (n + j) := by
  intro j
  induction j with
  | zero => intro fuel n _; rfl
  | succ k ih =>
      intro fuel n h
      have h0 := h 0 (by omega)
      rw [Nat.add_zero] at h0
      have hstep : poll_until_done_go get deadline interval ((fuel + k) + 1) n =
          poll_until_done_go get deadline interval (fuel + k) (n + 1) :=
        poll_go_step h0.1 (by omega)
      have e1 : fuel + (k + 1) = (fuel + k) + 1 := by omega
      rw [e1, hstep, ih fuel (n + 1) (by
        intro m hm
        have := h (m + 1) (by omega)
        have e2 : n + (m + 1) = n + 1 + m := by omega
        rwa [e2] at this)]
      congr 1
      omega

theorem poll_go_timeout_all {get : Nat → HResp} {deadline interval : Int}
    (hall : ∀ m, poll_nonterminal (get m)) :
    ∀ (fuel n : Nat), 1 ≤ fuel → deadline < ((n : Int) + (fuel : Int) - 1) * interval →
      poll_until_done_go get deadline interval fuel n =
        .error (.volcAPIError "Video generation timed out") := by
  intro fuel
  induction fuel with
  | zero => intro n h0 _; omega
  | succ k ih =>
      intro n _ hd
      by_cases hn : (n : Int) * interval > deadline
      · exact poll_go_timeout (hall n) hn
      · cases k with
        | zero =>
            exfalso
            apply hn
            push_cast at hd
            nlinarith [hd]
        | succ k' =>
            rw [poll_go_step (hall n) hn]
            apply ih (n + 1) (by omega)
            push_cast at hd ⊢
            nlinarith [hd]

/-- C6: `poll_until_done` returns the payload at the first response whose
status (case-insensitively, found anywhere under `status`/`state`) is in
the success set, raises a fatal error at the first response whose status is
in the failure set, and raises a timeout error when every response within
the deadline is non-terminal. -/
theorem poll_until_done_spec (get : Nat → HResp) (cfg : VideoConfig) (timeout_arg : Option Int) :
    (∀ n p, (∀ m, m < n → poll_nonterminal (get m)
          ∧ (m : Int) * max 1 cfg.poll_interval_s ≤ effective_video_timeout cfg timeout_arg) →
        (get n).status_code < 400 → json_loads (get n).body = some p →
        poll_status_of p ∈ VIDEO_SUCCESS_STATUS →
        poll_until_done get cfg timeout_arg = .ok p)
    ∧ (∀ n p, (∀ m, m < n → poll_nonterminal (get m)
          ∧ (m : Int) * max 1 cfg.poll_interval_s ≤ effective_video_timeout cfg timeout_arg) →
        (get n).status_code < 400 → json_loads (get n).body = some p →
        poll_status_of p ∉ VIDEO_SUCCESS_STATUS → poll_status_of p ∈ VIDEO_FAILURE_STATUS →
        poll_until_done get cfg timeout_arg = .error (.volcAPIError
          ("Video generation failed: status=" ++ poll_status_of p)))
    ∧ ((∀ m, poll_nonterminal (get m)) →
        poll_until_done get cfg timeout_arg =
          .error (.volcAPIError "Video generation timed out")) := by
  set D := effective_video_timeout cfg timeout_arg with hD
  set I := max 1 cfg.poll_interval_s with hI
  have hIpos : (1 : Int) ≤ I := le_max_left _ _
  have hIn : (0 : Int) < I := by omega
  have hdivlt : D < (D / I + 1) * I := by
    have h1 := Int.ediv_add_emod D I
    have h2 := Int.emod_lt_of_pos D hIn
    nlinarith [h1, h2]
  have hcast : ∀ h0 : 0 ≤ D, ((D.toNat / I.toNat : Nat) : Int) = D / I := by
    intro h0
    rw [Int.natCast_div, Int.toNat_of_nonneg h0, Int.toNat_of_nonneg (by omega)]
  have hfuel_big : ∀ n : Nat, (∀ m, m < n → (m : Int) * I ≤ D) → n < poll_fuel D I := by
    intro n h
    cases n with
    | zero => exact Nat.succ_pos _
    | succ j =>
        have hj : (j : Int) * I ≤ D := h j (by omega)
        have hD0 : 0 ≤ D := le_trans (by positivity) hj
        have h3 : (j : Int) * I < (D / I + 1) * I := lt_of_le_of_lt hj hdivlt
        have h4 : (j : Int) < D / I + 1 := lt_of_mul_lt_mul_right h3 (by omega)
        have h5 : (j : Int) < ((D.toNat / I.toNat : Nat) : Int) + 1 := by
          rw [hcast hD0]; exact h4
        have h6 : j < D.toNat / I.toNat + 1 := by exact_mod_cast h5
        simp only [poll_fuel]
        omega
  refine ⟨?_, ?_, ?_⟩
  · intro n p hreach hlt hload hs
    have hn : n < poll_fuel D I := hfuel_big n (fun m hm => (hreach m hm).2)
    obtain ⟨f, hf⟩ : ∃ f, poll_fuel D I = (f + 1) + n := ⟨poll_fuel D I - n - 1, by omega⟩
    unfold poll_until_done
    show poll_until_done_go get D I (poll_fuel D I) 0 = _
    rw [hf, poll_go_steps n (f + 1) 0 (by
      intro m hm
      simpa using hreach m hm)]
    simpa using poll_go_success hlt hload hs
  · intro n p hreach hlt hload hns hf
    have hn : n < poll_fuel D I := hfuel_big n (fun m hm => (hreach m hm).2)
    obtain ⟨f, hfu⟩ : ∃ f, poll_fuel D I = (f + 1) + n := ⟨poll_fuel D I - n - 1, by omega⟩
    unfold poll_until_done
    show poll_until_done_go get D I (poll_fuel D I) 0 = _
    rw [hfu, poll_go_steps n (f + 1) 0 (by
      intro m hm
      simpa using hreach m hm)]
    simpa using poll_go_failure hlt hload hns hf
  · intro hall
    unfold poll_until_done
    show poll_until_done_go get D I (poll_fuel D I) 0 = _
    apply poll_go_timeout_all hall (poll_fuel D I) 0 (Nat.succ_pos _)
    by_cases hD0 : 0 ≤ D
    · have h1 : D < (((D.toNat / I.toNat : Nat) : Int) + 1) * I := by
        rw [hcast hD0]; exact hdivlt
      simp only [poll_fuel]
      push_cast at h1 ⊢
      nlinarith [h1]
    · have hDneg : D < 0 := by omega
      have ht0 : D.toNat = 0 := Int.toNat_of_nonpos (by omega)
      simp only [poll_fuel, ht0, Nat.zero_div]
      push_cast
      nlinarith [hIpos, hDneg]

/-- C6 witness: the success clause of `poll_until_done_spec` applied at a
first response whose uppercase status matches case-insensitively. -/
theorem poll_until_done_spec_witness :
    poll_until_done c6get { api_key := "k" } none =
      .ok (JVal.obj [("status", JVal.s "SUCCEEDED"), ("video_url", JVal.s "https://x/y.mp4")]) :=
  (poll_until_done_spec c6get { api_key := "k" } none).1 0
    (JVal.obj [("status", JVal.s "SUCCEEDED"), ("video_url", JVal.s "https://x/y.mp4")])
    (by intro m hm; omega) (by decide) rfl (by decide)

/-! ### C1: rerun stage selection and artifact reuse -/

theorem find_assocInsert_self (kvs : List (String × String)) (k v : String) :
    (assocInsert kvs k v).find? (fun p => p.1 == k) = some (k, v) := by
  unfold assocInsert
  by_cases h : (kvs.find? (fun p => p.1 == k)).isSome = true
  · rw [if_pos h]
    rw [List.find?_map]
    have hpred : ((fun p : String × String => p.1 == k)
        ∘ (fun p => if p.1 == k then (k, v) else p))
        = (fun p : String × String => p.1 == k) := by
      funext p
      by_cases hp : (p.1 == k) = true
      · simp [Function.comp, hp]
      · simp [Function.comp, hp]
    rw [hpred]
    obtain ⟨q, hq⟩ := Option.isSome_iff_exists.mp h
    rw [hq]
    have hqe : q.1 = k := by simpa using List.find?_some hq
    simp [hqe]
  · rw [if_neg h]
    rw [List.find?_append]
    have hnone : kvs.find? (fun p => p.1 == k) = none := by
      cases hf : kvs.find? (fun p => p.1 == k)
      · rfl
      · rw [hf] at h; simp at h
    rw [hnone]
    simp

theorem fs_read_write_self (fs : FS) (p c : String) :
    fs_read (fs_write fs p c) p = some c := by
  simp [fs_read, fs_write, find_assocInsert_self]

theorem db_get_update (db : DB) (job_id : String) (f : JobRec → JobRec)
    (hid : ∀ j, (f j).id = j.id) :
    db_get_job (db_update_job db job_id f) job_id = (db_get_job db job_id).map f := by
  simp only [db_get_job, db_update_job]
  rw [List.find?_map]
  have hpred : ((fun j : JobRec => j.id == job_id)
      ∘ (fun j => if j.id == job_id then f j else j))
      = (fun j : JobRec => j.id == job_id) := by
    funext j
    by_cases hj : (j.id == job_id) = true
    · simp [Function.comp, hj, hid j]
    · simp [Function.comp, hj]
  rw [hpred]
  cases hf : db.jobs.find? (fun j => j.id == job_id) with
  | none => rfl
  | some j =>
      have hje : j.id = job_id := by simpa using List.find?_some hf
      simp [hje]

/-- C1 (amended): for every start stage `s` in the fixed order the stages
that run are exactly the suffix of the order from `s` on; reusing an
available parent artifact copies the parent's bytes verbatim into the
rerun's own path and records it under the same kind; a required artifact
missing from the parent's artifact map fails with a `PipelineError` naming
the artifact kind and the parent job id; a required artifact recorded in
the map but absent on disk fails with a `PipelineError` naming the
artifact kind and the recorded path (not the parent job id). -/
theorem rerun_stage_reuse_spec :
    (∀ s ∈ STAGE_SEQUENCE, ∀ t ∈ STAGE_SEQUENCE,
      (should_run_stage s t = true ↔ t ∈ STAGE_SEQUENCE.drop (STAGE_SEQUENCE.indexOf s)))
    ∧ (∀ (db : DB) (fs : FS) (job_id pid : String) (pas : List (String × String))
        (kind target ppath bytes : String) (required : Bool),
        (pas.find? (fun q => q.1 == kind)).map (fun q => q.2) = some ppath → ppath ≠ "" →
        fs_read fs ppath = some bytes →
        (db_get_job db job_id).isSome = true →
        reuse_parent_artifact db fs job_id pid pas kind target required =
            .ok (some target,
              db_update_job db job_id
                (fun j => { j with artifacts := assocInsert j.artifacts kind target }),
              fs_write fs target bytes)
          ∧ fs_read (fs_write fs target bytes) target = some bytes
          ∧ (db_get_job (db_update_job db job_id
                (fun j => { j with artifacts := assocInsert j.artifacts kind target })) job_id).map
              (fun j => (j.artifacts.find? (fun q => q.1 == kind)).map (fun q => q.2))
            = (db_get_job db job_id).map (fun _ => some target))
    ∧ (∀ (db : DB) (fs : FS) (job_id pid : String) (pas : List (String × String))
        (kind target : String),
        (pas.find? (fun q => q.1 == kind)).map (fun q => q.2) = none →
        reuse_parent_artifact db fs job_id pid pas kind target true =
          .error (.pipelineError
            ("重跑需复用产物 `" ++ kind ++ "`，但父任务 " ++ pid ++ " 缺少该产物"))
        ∧ pyContains ("重跑需复用产物 `" ++ kind ++ "`，但父任务 " ++ pid ++ " 缺少该产物") kind = true
        ∧ pyContains ("重跑需复用产物 `" ++ kind ++ "`，但父任务 " ++ pid ++ " 缺少该产物") pid = true)
    ∧ (∀ (db : DB) (fs : FS) (job_id pid : String) (pas : List (String × String))
        (kind target ppath : String),
        (pas.find? (fun q => q.1 == kind)).map (fun q => q.2) = some ppath → ppath ≠ "" →
        fs_read fs ppath = none →
        reuse_parent_artifact db fs job_id pid pas kind target true =
          .error (.pipelineError ("重跑需复用产物 `" ++ kind ++ "`，但文件不存在: " ++ ppath))
        ∧ pyContains ("重跑需复用产物 `" ++ kind ++ "`，但文件不存在: " ++ ppath) kind = true
        ∧ pyContains ("重跑需复用产物 `" ++ kind ++ "`，但文件不存在: " ++ ppath) ppath = true) := by
  refine ⟨?_, ?_, ?_, ?_⟩
  · intro s hs t ht
    fin_cases hs <;> fin_cases ht <;> decide
  · intro db fs job_id pid pas kind target ppath bytes required hfind hne hread hjob
    obtain ⟨j0, hj0⟩ := Option.isSome_iff_exists.mp hjob
    have hptext : ((pas.find? (fun q => q.1 == kind)).map (fun q => q.2)).getD "" = ppath := by
      rw [hfind]; rfl
    have hpne : (ppath == "") = false := by simpa using hne
    refine ⟨?_, fs_read_write_self fs target bytes, ?_⟩
    · unfold reuse_parent_artifact
      simp only [hptext, hpne, Bool.false_eq_true, if_false]
      rw [show fs_exists fs ppath = true from by simp [fs_exists, hread]]
      simp only [Bool.not_true, Bool.false_eq_true, if_false]
      rw [show (fs_read fs ppath).getD "" = bytes from by rw [hread]; rfl]
      unfold put_artifact
      rw [hj0]
    · rw [db_get_update db job_id
        (fun j => { j with artifacts := assocInsert j.artifacts kind target })
        (fun j => rfl), hj0]
      simp [find_assocInsert_self]
  · intro db fs job_id pid pas kind target hfind
    have hptext : ((pas.find? (fun q => q.1 == kind)).map (fun q => q.2)).getD "" = "" := by
      rw [hfind]; rfl
    refine ⟨?_, ?_, ?_⟩
    · unfold reuse_parent_artifact
      simp only [hptext]
      rfl
    · rw [pyContains_iff, toList_append, toList_append, toList_append, toList_append]
      exact infix_append_right _ (infix_append_right _ (infix_append_right _
        ((List.suffix_append _ _).isInfix)))
    · rw [pyContains_iff, toList_append, toList_append, toList_append, toList_append]
      exact infix_append_right _ ((List.suffix_append _ _).isInfix)
  · intro db fs job_id pid pas kind target ppath hfind hne hread
    have hptext : ((pas.find? (fun q => q.1 == kind)).map (fun q => q.2)).getD "" = ppath := by
      rw [hfind]; rfl
    have hpne : (ppath == "") = false := by simpa using hne
    refine ⟨?_, ?_, ?_⟩
    · unfold reuse_parent_artifact
      simp only [hptext, hpne, Bool.false_eq_true, if_false]
      rw [show fs_exists fs ppath = false from by simp [fs_exists, hread]]
      rfl
    · rw [pyContains_iff, toList_append, toList_append, toList_append]
      exact infix_append_right _ (infix_append_right _
        ((List.suffix_append _ _).isInfix))
    · rw [pyContains_iff, toList_append, toList_append, toList_append]
      exact (List.suffix_append _ _).isInfix

/-- C1 witness: the map-missing clause of `rerun_stage_reuse_spec` at a
parent with no artifacts, and the copy clause at a one-file filesystem. -/
theorem rerun_stage_reuse_spec_witness :
    reuse_parent_artifact { jobs := [c1job], events := [] } { files := [] } "j1" "p1" []
        "transcript_raw" "t.txt" true =
      .error (.pipelineError "重跑需复用产物 `transcript_raw`，但父任务 p1 缺少该产物") := by
  have h := (rerun_stage_reuse_spec.2.2.1 { jobs := [c1job], events := [] } { files := [] }
    "j1" "p1" [] "transcript_raw" "t.txt" rfl).1
  simpa using h

/-- C1 counterexample: a rerun starting at `script_gen` whose parent
records `transcript_polished` at a path that does not exist on disk fails
with a `PipelineError` that names the artifact kind and the recorded path
but not the parent job id `p1`, contradicting the claim that such failures
name the parent job id. -/
theorem rerun_missing_artifact_error_lacks_parent_id :
    (execute_job trivialPipelineEnv c1state "j1").1 =
      .error (.pipelineError "重跑需复用产物 `transcript_polished`，但文件不存在: pdir/tp.txt")
    ∧ pyContains "重跑需复用产物 `transcript_polished`，但文件不存在: pdir/tp.txt" "p1" = false :=
  ⟨rfl, by decide⟩

/-! ### C2: ASR standard path polling and timeout -/

theorem sql_step {query : Nat → HResp} {rid : String} {t : Int} {fuel n : Nat}
    {tried : List String} (hlt : (query n).status_code < 400)
    (hp : extract_status_code (query n) ∈ STANDARD_PROCESSING_STATUS) :
    standard_query_loop query rid t (fuel + 1) n tried =
      standard_query_loop query rid t fuel (n + 1) tried := by
  simp only [standard_query_loop]
  rw [if_neg (by omega : ¬ (query n).status_code ≥ 400), if_pos hp]

theorem sql_terminal {query : Nat → HResp} {rid : String} {t : Int} {fuel n : Nat}
    {tried : List String} {p : JVal} (hlt : (query n).status_code < 400)
    (ht : extract_status_code (query n) ∈ STANDARD_TERMINAL_STATUS
      ∨ extract_status_code (query n) = "")
    (hload : json_loads (query n).body = some p) :
    standard_query_loop query rid t (fuel + 1) n tried = (.done p, tried) := by
  have hnp : extract_status_code (query n) ∉ STANDARD_PROCESSING_STATUS := by
    intro hmem
    have he : extract_status_code (query n) = "20000001" := by
      simpa [STANDARD_PROCESSING_STATUS] using hmem
    rcases ht with ht | ht
    · rw [he] at ht
      simp [STANDARD_TERMINAL_STATUS] at ht
    · rw [he] at ht
      simp at ht
  have hb : (decide (extract_status_code (query n) ∈ STANDARD_TERMINAL_STATUS)
      || (extract_status_code (query n) == "")) = true := by
    rcases ht with ht | ht
    · simp [ht]
    · simp [ht]
  simp only [standard_query_loop]
  rw [if_neg (by omega : ¬ (query n).status_code ≥ 400), if_neg hnp]
  rw [if_pos (by simpa using hb)]
  simp only [hload]

theorem sql_steps {query : Nat → HResp} {rid : String} {t : Int} :
    ∀ (j fuel n : Nat) (tried : List String),
      (∀ m, m < j → (query (n + m)).status_code < 400
        ∧ extract_status_code (query (n + m)) ∈ STANDARD_PROCESSING_STATUS) →
      standard_query_loop query rid t (fuel + j) n tried =
        standard_query_loop query rid t fuel (n + j) tried := by
  intro j
  induction j with
  | zero => intro fuel n tried _; rfl
  | succ k ih =>
      intro fuel n tried h
      have h0 := h 0 (by omega)
      rw [Nat.add_zero] at h0
      have e1 : fuel + (k + 1) = (fuel + k) + 1 := by omega
      rw [e1, sql_step h0.1 h0.2, ih fuel (n + 1) tried (by
        intro m hm
        have := h (m + 1) (by omega)
        have e2 : n + (m + 1) = n + 1 + m := by omega
        rwa [e2] at this)]
      congr 1
      omega

theorem sql_all_processing {query : Nat → HResp} {rid : String} {t : Int}
    (hall : ∀ n, (query n).status_code < 400
      ∧ extract_status_code (query n) ∈ STANDARD_PROCESSING_STATUS) :
    ∀ (fuel n : Nat) (tried : List String),
      standard_query_loop query rid t fuel n tried =
        (.raised (.volcAPIError ("ASR standard query timed out after "
          ++ toString t ++ "s (resource_id=" ++ rid ++ ")")), tried) := by
  intro fuel
  induction fuel with
  | zero => intro n tried; rfl
  | succ k ih =>
      intro n tried
      rw [sql_step (hall n).1 (hall n).2, ih]

/-- C2 (amended): in the standard path, after an accepted submit the
request is polled at one-second steps against a deadline of
`max(5, configured timeout)` seconds; a poll whose business status is
terminal (or absent) within the budget makes the client return that
response's payload; but when every poll within the budget reports
processing, the client raises a `VolcAPIError` naming the timeout and that
candidate's resource id, aborting recognition entirely — it does not move
on to the remaining candidates. -/
theorem asr_standard_poll_spec (submit : String → HResp) (query : String → Nat → HResp)
    (cfg : ASRConfig) (rid : String) (rest tried : List String)
    (hsub_lt : (submit rid).status_code < 400)
    (hsub_ok : extract_status_code (submit rid) = "20000000") :
    ((∀ n, (query rid n).status_code < 400
        ∧ extract_status_code (query rid n) ∈ STANDARD_PROCESSING_STATUS) →
      recognize_standard submit query cfg (rid :: rest) tried =
        .error (.volcAPIError ("ASR standard query timed out after "
          ++ toString cfg.timeout_s ++ "s (resource_id=" ++ rid ++ ")")))
    ∧ (∀ k p, k < (max 5 cfg.timeout_s).toNat →
        (∀ m, m < k → (query rid m).status_code < 400
          ∧ extract_status_code (query rid m) ∈ STANDARD_PROCESSING_STATUS) →
        (query rid k).status_code < 400 →
        (extract_status_code (query rid k) ∈ STANDARD_TERMINAL_STATUS
          ∨ extract_status_code (query rid k) = "") →
        json_loads (query rid k).body = some p →
        recognize_standard submit query cfg (rid :: rest) tried = .ok (some p, tried)) := by
  have hsfalse : (extract_status_code (submit rid) != ""
      && extract_status_code (submit rid) != "20000000") = false := by
    rw [hsub_ok]
    rfl
  constructor
  · intro hall
    simp only [recognize_standard]
    rw [if_neg (by omega : ¬ (submit rid).status_code ≥ 400), hsfalse]
    simp only [Bool.false_eq_true, if_false]
    rw [sql_all_processing hall]
  · intro k p hk hproc hklt hterm hload
    simp only [recognize_standard]
    rw [if_neg (by omega : ¬ (submit rid).status_code ≥ 400), hsfalse]
    simp only [Bool.false_eq_true, if_false]
    obtain ⟨f, hf⟩ : ∃ f, (max 5 cfg.timeout_s).toNat = (f + 1) + k :=
      ⟨(max 5 cfg.timeout_s).toNat - k - 1, by omega⟩
    rw [hf, sql_steps k (f + 1) 0 tried (by intro m hm; simpa using hproc m hm)]
    rw [show 0 + k = k from by omega, sql_terminal hklt hterm hload]

/-- C2 witness: the terminal-poll clause of `asr_standard_poll_spec`, with
candidate `b` returning a terminal transcript on the first poll. -/
theorem asr_standard_poll_spec_witness :
    recognize_standard c2submit c2query c2cfg ["b"] [] =
      .ok (some (JVal.obj [("result", JVal.obj [("text", JVal.s "hi")])]), []) :=
  (asr_standard_poll_spec c2submit c2query c2cfg "b" [] [] (by decide) (by decide)).2
    0 (JVal.obj [("result", JVal.obj [("text", JVal.s "hi")])])
    (by decide) (by intro m hm; omega) (by decide) (Or.inl (by decide)) rfl

/-- C2 counterexample: with candidates `a` then `b`, where `a` polls as
processing past the whole deadline and `b` would return a terminal result
on its first poll, the standard path raises the timeout error for `a` and
never reaches `b` — the poll timeout is a fatal error for the whole
client, not a per-candidate skip. -/
theorem asr_standard_timeout_is_fatal :
    recognize_standard c2submit c2query c2cfg ["a", "b"] [] =
      .error (.volcAPIError "ASR standard query timed out after 5s (resource_id=a)")
    ∧ standard_query_loop (c2query "b") "b" c2cfg.timeout_s 5 0 [] =
        (.done (JVal.obj [("result", JVal.obj [("text", JVal.s "hi")])]), []) :=
  ⟨rfl, rfl⟩

/-! ### C7: ASR candidate order and aggregated permission failure -/

theorem candidate_resource_ids_eq (cfg : ASRConfig) :
    candidate_resource_ids cfg =
      (if pyStrip cfg.resource_id = "" then RESOURCE_FALLBACKS
       else pyStrip cfg.resource_id
            :: RESOURCE_FALLBACKS.filter (fun fb => fb != pyStrip cfg.resource_id)) := by
  by_cases hc : pyStrip cfg.resource_id = ""
  · rw [if_pos hc]
    simp only [candidate_resource_ids, hc]
    decide
  · rw [if_neg hc]
    have hne : (pyStrip cfg.resource_id != "") = true := by simpa using hc
    simp only [candidate_resource_ids, hne, if_true]
    by_cases h1 : pyStrip cfg.resource_id = "volc.bigasr.auc_turbo"
    · rw [h1]; decide
    · by_cases h2 : pyStrip cfg.resource_id = "volc.seedasr.auc"
      · rw [h2]; decide
      · by_cases h3 : pyStrip cfg.resource_id = "volc.bigasr.auc"
        · rw [h3]; decide
        · have b1 : ("volc.bigasr.auc_turbo" != pyStrip cfg.resource_id) = true := by
            simp only [bne_iff_ne, ne_eq]
            exact fun h => h1 h.symm
          have b2 : ("volc.seedasr.auc" != pyStrip cfg.resource_id) = true := by
            simp only [bne_iff_ne, ne_eq]
            exact fun h => h2 h.symm
          have b3 : ("volc.bigasr.auc" != pyStrip cfg.resource_id) = true := by
            simp only [bne_iff_ne, ne_eq]
            exact fun h => h3 h.symm
          have e1 : ¬ ("volc.bigasr.auc_turbo" = pyStrip cfg.resource_id) := fun h => h1 h.symm
          have e2 : ¬ ("volc.seedasr.auc" = pyStrip cfg.resource_id) := fun h => h2 h.symm
          have e3 : ¬ ("volc.bigasr.auc" = pyStrip cfg.resource_id) := fun h => h3 h.symm
          simp [RESOURCE_FALLBACKS, List.filter, b1, b2, b3, e1, e2, e3]

theorem recognize_flash_all_permission (flash : String → HResp) :
    ∀ (l : List String) (tried : List String),
      (∀ rid ∈ l, (flash rid).status_code ≥ 400 ∧ is_permission_response (flash rid) = true) →
      recognize_flash flash l tried =
        .ok (none, tried ++ l.map (fun rid => try_error_line "flash" rid (flash rid))) := by
  intro l
  induction l with
  | nil => intro tried _; simp [recognize_flash]
  | cons rid rest ih =>
      intro tried h
      have h0 := h rid (by simp)
      simp only [recognize_flash]
      rw [if_pos h0.1, h0.2]
      simp only [if_true]
      rw [ih _ (fun r hr => h r (by simp [hr]))]
      simp

theorem recognize_standard_all_permission (submit : String → HResp)
    (query : String → Nat → HResp) (cfg : ASRConfig) :
    ∀ (l : List String) (tried : List String),
      (∀ rid ∈ l, (submit rid).status_code ≥ 400 ∧ is_permission_response (submit rid) = true) →
      recognize_standard submit query cfg l tried =
        .ok (none, tried ++ l.map (fun rid => try_error_line "submit" rid (submit rid))) := by
  intro l
  induction l with
  | nil => intro tried _; simp [recognize_standard]
  | cons rid rest ih =>
      intro tried h
      have h0 := h rid (by simp)
      simp only [recognize_standard]
      rw [if_pos h0.1, h0.2]
      simp only [if_true]
      rw [ih _ (fun r hr => h r (by simp [hr]))]
      simp

theorem candidate_resource_ids_props (cfg : ASRConfig) :
    (candidate_resource_ids cfg).Nodup
    ∧ (∀ fb ∈ RESOURCE_FALLBACKS, fb ∈ candidate_resource_ids cfg)
    ∧ (pyStrip cfg.resource_id ≠ "" →
        (candidate_resource_ids cfg).head? = some (pyStrip cfg.resource_id)) := by
  refine ⟨?_, ?_, ?_⟩
  · rw [candidate_resource_ids_eq cfg]
    by_cases hc : pyStrip cfg.resource_id = ""
    · rw [if_pos hc]; decide
    · rw [if_neg hc]
      refine List.Nodup.cons ?_ (List.Nodup.filter _ (by decide))
      intro hmem
      have hself := (List.mem_filter.mp hmem).2
      simp at hself
  · intro fb hfb
    rw [candidate_resource_ids_eq cfg]
    by_cases hc : pyStrip cfg.resource_id = ""
    · rw [if_pos hc]; exact hfb
    · rw [if_neg hc]
      by_cases hfc : fb = pyStrip cfg.resource_id
      · simp [hfc]
      · simp only [List.mem_cons]
        right
        rw [List.mem_filter]
        exact ⟨hfb, by simpa using hfc⟩
  · intro hc
    rw [candidate_resource_ids_eq cfg, if_neg hc]
    rfl

theorem recognize_all_permission_aggregate (oracle : ASROracle) (cfg : ASRConfig)
    (happ : cfg.appid ≠ "") (htok : cfg.access_token ≠ "")
    (hflash : ∀ rid ∈ candidate_resource_ids cfg,
      (oracle.flash rid).status_code ≥ 400
        ∧ is_permission_response (oracle.flash rid) = true)
    (hsubmit : ∀ rid ∈ candidate_resource_ids cfg,
      (oracle.submit rid).status_code ≥ 400
        ∧ is_permission_response (oracle.submit rid) = true) :
    recognize oracle cfg = .error (.volcAPIError (asr_aggregate_message oracle cfg)) := by
  unfold recognize
  have hcred : (cfg.appid == "" || cfg.access_token == "") = false := by
    simp [happ, htok]
  rw [hcred]
  simp only [Bool.false_eq_true, if_false]
  rw [recognize_flash_all_permission oracle.flash _ [] hflash]
  simp only [List.nil_append]
  rw [recognize_standard_all_permission oracle.submit oracle.query cfg _ _ hsubmit]
  simp [asr_aggregate_message]

theorem aggregate_message_names_candidates (oracle : ASROracle) (cfg : ASRConfig) :
    ∀ rid ∈ candidate_resource_ids cfg,
      pyContains (asr_aggregate_message oracle cfg) rid = true := by
  intro rid hrid
  rw [pyContains_iff]
  unfold asr_aggregate_message
  rw [toList_append, toList_append, toList_append, toList_append]
  exact infix_append_right _ (infix_append_right _ (infix_append_right _
    (infix_append_left _ (infix_pyJoin hrid))))

/-- C7: the candidate resource-id list is the stripped configured id (when
non-empty) followed by the fixed fallback list with the configured id
de-duplicated, and it is duplicate-free; when every candidate fails both
the flash and the standard path with permission-class failures, `recognize`
raises a single aggregated error whose message names every tried candidate
identifier together with the per-attempt flash and submit traces, in
candidate order. -/
theorem asr_candidates_aggregate_spec :
    (∀ cfg : ASRConfig,
      candidate_resource_ids cfg =
        (if pyStrip cfg.resource_id = "" then RESOURCE_FALLBACKS
         else pyStrip cfg.resource_id
              :: RESOURCE_FALLBACKS.filter (fun fb => fb != pyStrip cfg.resource_id))
      ∧ (candidate_resource_ids cfg).Nodup
      ∧ (∀ fb ∈ RESOURCE_FALLBACKS, fb ∈ candidate_resource_ids cfg)
      ∧ (pyStrip cfg.resource_id ≠ "" →
          (candidate_resource_ids cfg).head? = some (pyStrip cfg.resource_id)))
    ∧ (∀ (oracle : ASROracle) (cfg : ASRConfig),
        cfg.appid ≠ "" → cfg.access_token ≠ "" →
        (∀ rid ∈ candidate_resource_ids cfg,
          (oracle.flash rid).status_code ≥ 400
            ∧ is_permission_response (oracle.flash rid) = true) →
        (∀ rid ∈ candidate_resource_ids cfg,
          (oracle.submit rid).status_code ≥ 400
            ∧ is_permission_response (oracle.submit rid) = true) →
        recognize oracle cfg = .error (.volcAPIError (asr_aggregate_message oracle cfg))
        ∧ ∀ rid ∈ candidate_resource_ids cfg,
            pyContains (asr_aggregate_message oracle cfg) rid = true) := by
  exact ⟨fun cfg => ⟨candidate_resource_ids_eq cfg, candidate_resource_ids_props cfg⟩,
    fun oracle cfg happ htok hflash hsubmit =>
      ⟨recognize_all_permission_aggregate oracle cfg happ htok hflash hsubmit,
       aggregate_message_names_candidates oracle cfg⟩⟩

/-- C7 witness: the aggregated-error clause applied to an oracle failing
every candidate with a permission-class error. -/
theorem asr_candidates_aggregate_spec_witness :
    recognize c7oracle c7cfg =
      .error (.volcAPIError (asr_aggregate_message c7oracle c7cfg))
    ∧ ∀ rid ∈ candidate_resource_ids c7cfg,
        pyContains (asr_aggregate_message c7oracle c7cfg) rid = true :=
  asr_candidates_aggregate_spec.2 c7oracle c7cfg (by decide) (by decide)
    (by decide) (by decide)

/-! ### C9: transcript extraction precedence -/

/-- C9: transcript extraction is total and follows the precedence
`result.text` (trimmed, when a non-blank string) → the first
utterances/sentences block found by depth-first search that yields
non-blank row texts, joined with newlines → the first non-blank string
under any `text` key anywhere → the empty string. -/
theorem parse_asr_text_spec (payload : JObj) :
    (∀ r t, jget payload "result" = some (JVal.obj r) → jget r "text" = some (JVal.s t) →
        pyStrip t ≠ "" → parse_asr_text payload = pyStrip t)
    ∧ ((∀ r, jget payload "result" = some (JVal.obj r) →
          ∀ t, jget r "text" = some (JVal.s t) → pyStrip t = "") →
        (∀ parts,
            first_block_texts (deep_find ["utterances", "sentences"] (.obj payload)) = some parts →
            parse_asr_text payload = pyJoin "\n" parts)
        ∧ (first_block_texts (deep_find ["utterances", "sentences"] (.obj payload)) = none →
            (∀ t, first_string (deep_find ["text"] (.obj payload)) = some t →
                parse_asr_text payload = t)
            ∧ (first_string (deep_find ["text"] (.obj payload)) = none →
                parse_asr_text payload = ""))) := by
  constructor
  · intro r t hr ht hne
    unfold parse_asr_text
    simp only [hr, ht]
    simp [hne]
  · intro hnodirect
    have hdirect : (match jget payload "result" with
        | some (.obj r) =>
            match jget r "text" with
            | some (.s t) => if pyStrip t != "" then some (pyStrip t) else none
            | _ => none
        | _ => none) = (none : Option String) := by
      cases hres : jget payload "result" with
      | none => rfl
      | some v =>
          cases v with
          | obj r =>
              cases htx : jget r "text" with
              | none => simp [htx]
              | some w =>
                  cases w with
                  | s t =>
                      have hblank := hnodirect r hres t htx
                      simp [htx, hblank]
                  | i a => simp [htx]
                  | f a => simp [htx]
                  | b a => simp [htx]
                  | null => simp [htx]
                  | arr a => simp [htx]
                  | obj a => simp [htx]
          | s a => rfl
          | i a => rfl
          | f a => rfl
          | b a => rfl
          | null => rfl
          | arr a => rfl
    constructor
    · intro parts hparts
      unfold parse_asr_text
      rw [hdirect, hparts]
    · intro hblocks
      constructor
      · intro t htext
        unfold parse_asr_text
        rw [hdirect, hblocks, htext]
      · intro htext
        unfold parse_asr_text
        rw [hdirect, hblocks, htext]

/-- C9 witness: concrete payloads exercising the first and second
precedence levels through `parse_asr_text_spec`. -/
theorem parse_asr_text_spec_witness :
    parse_asr_text [("result", .obj [("text", .s " 你好 ")])] = "你好"
    ∧ parse_asr_text [("result", .obj [("utterances", .arr
        [.obj [("text", .s "第一句")], .obj [("text", .s "第二句")]])])] = "第一句\n第二句" :=
  ⟨(parse_asr_text_spec [("result", .obj [("text", .s " 你好 ")])]).1
      [("text", .s " 你好 ")] " 你好 " rfl rfl (by decide),
   by
    have h := ((parse_asr_text_spec [("result", .obj [("utterances", .arr
        [.obj [("text", .s "第一句")], .obj [("text", .s "第二句")]])])]).2
      (by intro r hr t ht; cases hr; cases ht)) |>.1 ["第一句", "第二句"] rfl
    simpa using h⟩

/-! ### C10: executing a missing job id is a silent no-op -/

/-- C10: when no job record exists for the id, `execute_job` returns
normally and leaves the job store, event log and filesystem untouched. -/
theorem execute_job_missing_job_noop (env : PipelineEnv) (st : RunState) (job_id : String)
    (h : db_get_job st.db job_id = none) :
    execute_job env st job_id = (.ok (), st) := by
  unfold execute_job execute_job_inner
  rw [h]

/-- C10 witness: a concrete store with no such job. -/
theorem execute_job_missing_job_noop_witness :
    db_get_job trivialRunState.db "absent-job" = none
    ∧ execute_job trivialPipelineEnv trivialRunState "absent-job" = (.ok (), trivialRunState) :=
  ⟨rfl, execute_job_missing_job_noop trivialPipelineEnv trivialRunState "absent-job" rfl⟩

end VideoBling
